import Mathlib

/-!
# CameraScanner: capture / preview / upload workflow

A shallow embedding of `src/frontend/components/CameraScanner.jsx`.

* The seven `useState` cells of the component are the fields of `State`.
* Everything outside the component that its handlers touch (object URLs,
  media-stream tracks, `fetch`, the `onProcessed` and `onClose` props, the
  promises and callbacks that are still outstanding) is the record `World`.
* An `async` function is split at its `await`: the part that runs inside the
  caller's turn keeps the source name (`startCamera`, `upload`), the part that
  runs when the promise settles is `startCameraResume` / `uploadResume`.
  `canvas.toBlob` is split the same way into `captureImage` and
  `toBlobCallback`.
* External calls (`URL.*`, `track.stop`, `console.error`, the two callback
  props) are taken to return normally.
* `SuccessView` is the function from the response to what it shows, `none`
  when rendering throws.

The last part embeds `toggleTask` and `completedCount` of
`src/frontend/components/Tasks.jsx`.
-/

namespace CameraScanner

/-! ## JavaScript values -/

/-- A value produced by `res.json()`. Objects are association lists in key
order, one entry per key. A number is given by the text JavaScript prints for
it (`String(n)`: "3", "0.5", "1e+21"; "0" for both zeros), which is all the
component ever does with one besides testing it. -/
inductive Json where
  | null : Json
  | bool (b : Bool) : Json
  | num (text : String) : Json
  | str (s : String) : Json
  | arr (items : List Json) : Json
  | obj (fields : List (String × Json)) : Json

namespace Json

/-- JavaScript `ToBoolean` on a parsed JSON value. -/
def truthy : Json → Bool
  | null => false
  | bool b => b
  | num text => text != "0"
  | str s => s != ""
  | arr _ => true
  | obj _ => true

/-- Property read `j?.key` for a key that no built-in prototype defines
(`message`, `data`, `products`, `inserted_id`): `none` is `undefined`. -/
def get? (j : Json) (key : String) : Option Json :=
  match j with
  | obj fields => fields.lookup key
  | _ => none

mutual
/-- JavaScript `ToString` on a parsed JSON value, as `new Error(v)` applies it
to its argument; `none` when the conversion throws. An object converts through
`Object.prototype.toString`, unless it has an entry named `toString` of its
own, which is not callable and leaves no way to a primitive: a `TypeError`. -/
def toJsString : Json → Option String
  | null => some "null"
  | bool b => some (if b then "true" else "false")
  | num text => some text
  | str s => some s
  | arr items => joinItems items
  | obj fields =>
    if fields.any (fun kv => kv.1 == "toString") then none else some "[object Object]"
/-- `Array.prototype.join(",")`, element by element. -/
def joinItems : List Json → Option String
  | [] => some ""
  | [x] => joinItem x
  | x :: y :: rest =>
    match joinItem x, joinItems (y :: rest) with
    | some first, some others => some (first ++ "," ++ others)
    | _, _ => none
/-- One element of a joined array: a `null` element contributes the empty
string, any other its `ToString`. -/
def joinItem : Json → Option String
  | null => some ""
  | bool b => some (if b then "true" else "false")
  | num text => some text
  | str s => some s
  | arr items => joinItems items
  | obj fields =>
    if fields.any (fun kv => kv.1 == "toString") then none else some "[object Object]"
end

mutual
/-- Whether React accepts the value as a child of an element: strings and
numbers are text, `null` and booleans render nothing, an array is rendered
item by item, and a plain object throws ("Objects are not valid as a React
child"). -/
def validChild : Json → Bool
  | arr items => validChildren items
  | obj _ => false
  | _ => true
/-- Every item of an array is a valid child. -/
def validChildren : List Json → Bool
  | [] => true
  | x :: rest => validChild x && validChildren rest
end

end Json

/-- The operand chain `v || fallback` where `v` may be `undefined`. -/
def orElse (v : Option Json) (fallback : Json) : Json :=
  match v with
  | some j => if j.truthy then j else fallback
  | none => fallback

/-! ## Data model -/

/-- A `Blob` as `canvas.toBlob` hands it to its callback. -/
structure Blob where
  type : String
  bytes : List Nat
deriving DecidableEq, Repr

/-- A `File`: a blob that carries a name (`e.target.files[0]`, `new File`). -/
structure File where
  name : String
  type : String
  bytes : List Nat
deriving DecidableEq, Repr

/-- What `capturedBlob` can hold when it is not `null`; the constructor
decides `capturedBlob instanceof File`. -/
inductive Payload where
  | blob (b : Blob) : Payload
  | file (f : File) : Payload
deriving DecidableEq, Repr

/-- The `useState` cells of `CameraScanner` (lines 14-20). A stream is named
by the number the environment gave it; `serverResponse` starts as `null`. -/
structure State where
  stream : Option Nat
  previewUrl : String
  capturedBlob : Option Payload
  busy : Bool
  error : String
  uploadSuccess : Bool
  serverResponse : Json

/-- The `meta` prop. -/
structure Meta where
  user_id : String
  user_name : String
  pick_up_location : String
deriving DecidableEq, Repr

/-- The props that the handlers read: whether `onProcessed` was supplied, and
`meta`. `onClose` is always supplied. -/
structure Props where
  onProcessed : Bool
  meta : Option Meta
deriving DecidableEq, Repr

/-- One entry of a `FormData`. -/
inductive Part where
  | text (value : String) : Part
  | file (f : File) : Part
deriving DecidableEq, Repr

/-- One call of `fetch`. -/
structure Request where
  url : String
  method : String
  form : List (String × Part)
deriving DecidableEq, Repr

/-- The `<video>` element as `captureImage` reads it. -/
structure Video where
  videoWidth : Nat
  videoHeight : Nat
deriving DecidableEq, Repr

/-- What a `canvas.toBlob` callback carries from the render in which
`captureImage` ran: the `previewUrl` and `stream` it closed over, and the
size the canvas was given. -/
structure Snapshot where
  previewUrl : String
  stream : Option Nat
  width : Nat
  height : Nat
deriving DecidableEq, Repr

/-- Everything outside the component's own state. -/
structure World where
  /-- number of object URLs created so far -/
  urlSeq : Nat
  /-- object URLs created and not revoked -/
  liveUrls : List String
  /-- arguments of the `URL.revokeObjectURL` calls, oldest first -/
  revokedUrls : List String
  /-- number of streams handed out by `getUserMedia` so far -/
  streamSeq : Nat
  /-- streams whose tracks have not been stopped -/
  running : List Nat
  /-- `srcObject` of the video element -/
  srcObject : Option Nat
  /-- number of `getUserMedia` calls made -/
  acquisitions : Nat
  /-- `getUserMedia` promises not settled yet -/
  pendingCameras : Nat
  /-- `toBlob` callbacks not run yet -/
  pendingBlobs : List Snapshot
  /-- `fetch` calls made, oldest first -/
  requests : List Request
  /-- uploads whose `await` has not resumed yet -/
  inFlight : Nat
  /-- arguments of the `onProcessed` calls, oldest first -/
  processed : List Json
  /-- number of `onClose` calls -/
  closeCalls : Nat

/-- The component together with its environment. -/
structure Config where
  st : State
  env : World

def API : String := "https://prologis-hackathon.onrender.com"

/-- Message of the `catch` branch of `startCamera`. -/
def deviceAccessError : String :=
  "Camera access denied or unavailable. You can upload a photo from your gallery."

/-- Message of the guard at the top of `upload`. -/
def noImageError : String := "Please capture or select an image first."

/-- The literal `"Upload failed"`. -/
def uploadFailed : String := "Upload failed"

/-- The values of `useState(...)` on the first render. -/
def State.initial : State :=
  { stream := none, previewUrl := "", capturedBlob := none, busy := false,
    error := "", uploadSuccess := false, serverResponse := Json.null }

/-- An environment in which nothing has happened yet. -/
def World.initial : World :=
  { urlSeq := 0, liveUrls := [], revokedUrls := [], streamSeq := 0, running := [],
    srcObject := none, acquisitions := 0, pendingCameras := 0, pendingBlobs := [],
    requests := [], inFlight := 0, processed := [], closeCalls := 0 }

/-! ## Browser primitives -/

/-- `URL.createObjectURL`: a fresh, non-empty `blob:` URL. -/
def createObjectURL (w : World) : String × World :=
  let url := "blob:" ++ toString w.urlSeq
  (url, { w with urlSeq := w.urlSeq + 1, liveUrls := w.liveUrls ++ [url] })

/-- `URL.revokeObjectURL(url)`. -/
def revokeObjectURL (url : String) (w : World) : World :=
  { w with liveUrls := w.liveUrls.filter (fun u => u != url),
           revokedUrls := w.revokedUrls ++ [url] }

/-- The statement `if (previewUrl) URL.revokeObjectURL(previewUrl);`. -/
def revokeIfSet (previewUrl : String) (w : World) : World :=
  if previewUrl != "" then revokeObjectURL previewUrl w else w

/-- `stopCamera` (lines 42-44), given the `stream` its closure holds. -/
def stopCamera (stream : Option Nat) (w : World) : World :=
  match stream with
  | some sid => { w with running := w.running.filter (fun r => r != sid) }
  | none => w

/-- Whether the `<video>` element is rendered (lines 149-156), that is,
whether `videoRef.current` is set. -/
def videoMounted (s : State) : Bool :=
  !s.uploadSuccess && s.previewUrl == ""

/-- `videoRef.current`, when the element reports the frame size `frame`. -/
def videoRef (frame : Video) (s : State) : Option Video :=
  if videoMounted s then some frame else none

/-! ## Camera control (lines 25-44) -/

/-- `startCamera` up to its `await`: `setError("")` and the `getUserMedia`
call. -/
def startCamera (c : Config) : Config :=
  { st := { c.st with error := "" },
    env := { c.env with acquisitions := c.env.acquisitions + 1,
                        pendingCameras := c.env.pendingCameras + 1 } }

/-- `startCamera` after its `await`. `granted = true`: the promise resolved
with a new stream (lines 32-33); `granted = false`: it rejected (lines 34-39). -/
def startCameraResume (granted : Bool) (c : Config) : Config :=
  if granted then
    let sid := c.env.streamSeq
    { st := { c.st with stream := some sid },
      env := { c.env with streamSeq := sid + 1,
                          running := c.env.running ++ [sid],
                          srcObject := if videoMounted c.st then some sid else c.env.srcObject,
                          pendingCameras := c.env.pendingCameras - 1 } }
  else
    { st := { c.st with error := deviceAccessError },
      env := { c.env with pendingCameras := c.env.pendingCameras - 1 } }

/-- The mount effect (lines 46-47) on the first render. -/
def mount : Config :=
  startCamera { st := State.initial, env := World.initial }

/-! ## Capture / Retake / Gallery (lines 55-97) -/

/-- `captureImage` up to the `toBlob` call (lines 55-64): nothing without a
video element; otherwise a canvas of size `videoWidth || 1280` by
`videoHeight || 720` is drawn and its encoding requested. -/
def captureImage (video : Option Video) (c : Config) : Config :=
  match video with
  | none => c
  | some v =>
    let w := if v.videoWidth = 0 then 1280 else v.videoWidth
    let h := if v.videoHeight = 0 then 720 else v.videoHeight
    { c with env := { c.env with
        pendingBlobs := c.env.pendingBlobs ++ [⟨c.st.previewUrl, c.st.stream, w, h⟩] } }

/-- The callback passed to `toBlob` (lines 65-72); `cl` is what it closed
over. -/
def toBlobCallback (cl : Snapshot) (blob : Option Blob) (c : Config) : Config :=
  match blob with
  | none => c
  | some b =>
    let created := createObjectURL c.env
    let w1 := revokeIfSet cl.previewUrl created.2
    { st := { c.st with capturedBlob := some (Payload.blob b), previewUrl := created.1 },
      env := stopCamera cl.stream w1 }

/-- `retake` (lines 78-85). -/
def retake (c : Config) : Config :=
  let w1 := revokeIfSet c.st.previewUrl c.env
  startCamera
    { st := { c.st with previewUrl := "", capturedBlob := none, uploadSuccess := false,
                        serverResponse := Json.null },
      env := w1 }

/-- `onPickFile` (lines 89-97); `files` is `e.target.files`. -/
def onPickFile (files : List File) (c : Config) : Config :=
  match files.head? with
  | none => c
  | some file =>
    let w1 := revokeIfSet c.st.previewUrl c.env
    let created := createObjectURL w1
    { st := { c.st with previewUrl := created.1, capturedBlob := some (Payload.file file) },
      env := stopCamera c.st.stream created.2 }

/-! ## Upload (lines 100-139) -/

/-- How `await res.json()` ends. -/
inductive Body where
  /-- it rejects; `msg` is the `message` of the error -/
  | unparseable (msg : String) : Body
  /-- it resolves with this value -/
  | json (payload : Json) : Body

/-- How `await fetch(...)` followed by `await res.json()` ends. -/
inductive FetchOutcome where
  /-- `fetch` rejects (no response); `msg` is the `message` of the error -/
  | rejected (msg : String) : FetchOutcome
  /-- `fetch` resolves with a response of this HTTP status -/
  | response (status : Nat) (body : Body) : FetchOutcome

/-- The getter `res.ok`: the status is in the range 200-299. -/
def ok (status : Nat) : Bool :=
  200 ≤ status && status ≤ 299

/-- The `file` of lines 108-111. -/
def uploadFile (capturedBlob : Payload) : File :=
  match capturedBlob with
  | Payload.file f => f
  | Payload.blob b => { name := "scan.png", type := "image/png", bytes := b.bytes }

/-- The `FormData` of lines 113-117. -/
def uploadForm (capturedBlob : Payload) : List (String × Part) :=
  [("file", Part.file (uploadFile capturedBlob)),
   ("user_id", Part.text "1"),
   ("user_name", Part.text "Aayush"),
   ("pick_up_location", Part.text "A7")]

/-- `upload` up to its first `await` (lines 100-122). -/
def upload (c : Config) : Config :=
  match c.st.capturedBlob with
  | none => { c with st := { c.st with error := noImageError } }
  | some capturedBlob =>
    { st := { c.st with error := "", busy := true },
      env := { c.env with
        requests := c.env.requests ++
          [{ url := API ++ "/process-image", method := "POST", form := uploadForm capturedBlob }],
        inFlight := c.env.inFlight + 1 } }

/-- The `catch` block (lines 133-135) for an error whose `message` is `msg`. -/
def uploadCatch (msg : String) (s : State) : State :=
  { s with error := if msg != "" then msg else uploadFailed }

/-- The `message` of the `TypeError` that a failing string conversion throws
(in Chrome's wording; other engines phrase it differently, and no statement
below depends on it). -/
def conversionError : String := "Cannot convert object to primitive value"

/-- The `message` of the error that line 126 throws: that of
`new Error(payload?.message || "Upload failed")`, or of the `TypeError` raised
while converting its argument to a string. -/
def rejectionMessage (payload : Json) : String :=
  match (orElse (payload.get? "message") (Json.str uploadFailed)).toJsString with
  | some text => text
  | none => conversionError

/-- `upload` after its `await`s (lines 124-138), `finally` included. -/
def uploadResume (props : Props) (o : FetchOutcome) (c : Config) : Config :=
  let r : Config :=
    match o with
    | FetchOutcome.rejected msg => { c with st := uploadCatch msg c.st }
    | FetchOutcome.response _ (Body.unparseable msg) => { c with st := uploadCatch msg c.st }
    | FetchOutcome.response status (Body.json payload) =>
      if !ok status then
        { c with st := uploadCatch (rejectionMessage payload) c.st }
      else
        { st := { c.st with uploadSuccess := true, serverResponse := payload },
          env := { c.env with
            processed := if props.onProcessed then c.env.processed ++ [payload]
                         else c.env.processed } }
  { st := { r.st with busy := false },
    env := { r.env with inFlight := r.env.inFlight - 1 } }

/-- One whole run of `upload` whose request, if one is made, ends as `o`. -/
def uploadRun (props : Props) (o : FetchOutcome) (c : Config) : Config :=
  if c.st.capturedBlob.isSome then uploadResume props o (upload c) else upload c

/-- `handleClose` (lines 141-145). -/
def handleClose (c : Config) : Config :=
  let w1 := stopCamera c.st.stream c.env
  let w2 := revokeIfSet c.st.previewUrl w1
  { c with env := { w2 with closeCalls := w2.closeCalls + 1 } }

/-! ## SuccessView (lines 391-482) -/

/-- The `length` of a JavaScript string: its number of UTF-16 code units. -/
def utf16Length (s : String) : Nat :=
  s.data.foldl (fun n ch => n + (if ch.val < 0x10000 then 1 else 2)) 0

/-- The one-unit strings `s[0]`, `s[1]`, ... of a JavaScript string. A unit
is represented by the character it is part of. -/
def codeUnits (s : String) : List Json :=
  s.data.flatMap (fun ch =>
    List.replicate (if ch.val < 0x10000 then 1 else 2) (Json.str (String.singleton ch)))

/-- `Object.entries(v)`: the fields of an object, the elements of an array
under their indices, the code units of a string under their indices, nothing
for a number or a boolean. -/
def objectEntries (v : Json) : List (String × Json) :=
  match v with
  | Json.obj fields => fields
  | Json.arr items => items.enum.map (fun iv => (toString iv.1, iv.2))
  | Json.str s => (codeUnits s).enum.map (fun iv => (toString iv.1, iv.2))
  | _ => []

/-- `Object.keys(v)`. -/
def objectKeys (v : Json) : List String :=
  (objectEntries v).map Prod.fst

/-- One labelled value of a product card. -/
structure CardField where
  label : String
  value : Json

/-- One `product-card` element (lines 436-470). -/
structure ProductCard where
  key : String
  name : String
  fields : List CardField

/-- The labels of a product card and the property each one shows, in the
order of lines 439-468. -/
def detailSlots : List (String × String) :=
  [("Qty", "quantity"), ("Price", "price"), ("Pick-up Time", "pick_up_time"),
   ("Drop-off Time", "drop_off_time"), ("Pick-up", "pick_up_location"),
   ("Drop-off", "drop_off_location")]

/-- Whether the slot `details.f && <div>...{details.f}</div>` can be
rendered: a falsy value is rendered as it is, a truthy one is placed as the
child of the inner `div` and has to be a valid child. -/
def slotRenders (details : Json) (slot : String × String) : Bool :=
  match details.get? slot.2 with
  | some v => !v.truthy || v.validChild
  | none => true

/-- The card that the `map` callback of lines 435-470 renders for one entry
`[name, details]`; `none` when rendering it throws: reading a property of
`null` does, and so does a truthy property that is not a valid child. A
labelled value is shown for each property of `details` that is truthy. -/
def productCard (name : String) (details : Json) : Option ProductCard :=
  match details with
  | Json.null => none
  | _ =>
    if detailSlots.all (slotRenders details) then
      some { key := name, name := name,
             fields := detailSlots.filterMap (fun slot =>
               match details.get? slot.2 with
               | some v => if v.truthy then some { label := slot.1, value := v } else none
               | none => none) }
    else none

/-- The `map` of lines 435-470 over the entries, in order: it throws as soon
as one callback throws. -/
def productCards : List (String × Json) → Option (List ProductCard)
  | [] => some []
  | e :: rest =>
    match productCard e.1 e.2 with
    | none => none
    | some card => (productCards rest).map (fun cards => card :: cards)

/-- The `products` of line 392: `response?.data?.products || {}`. -/
def productsOf (response : Json) : Json :=
  orElse ((response.get? "data").bind (fun d => d.get? "products")) (Json.obj [])

/-- What `SuccessView` shows of the response. -/
structure SuccessScreen where
  /-- `src` of the receipt image -/
  imageUrl : String
  /-- the value under "Document ID" -/
  documentId : Json
  /-- the `n` of "Products (n)" -/
  productCount : Nat
  /-- the product cards, in order -/
  cards : List ProductCard

/-- The child placed under "Document ID" (line 428):
`response?.inserted_id || "N/A"`. -/
def documentIdOf (response : Json) : Json :=
  orElse (response.get? "inserted_id") (Json.str "N/A")

/-- What `SuccessView` (lines 391-482) puts on the screen; `none` when
rendering it throws, which happens when a product card cannot be rendered or
the document id is not a valid child. -/
def SuccessView (imageUrl : String) (response : Json) : Option SuccessScreen :=
  let products := productsOf response
  let productCount := (objectKeys products).length
  match productCards (objectEntries products) with
  | none => none
  | some cards =>
    if (documentIdOf response).validChild then
      some { imageUrl := imageUrl,
             documentId := documentIdOf response,
             productCount := productCount,
             cards := cards }
    else none

/-- The render of the component throws. Only `SuccessView` can, and it is
rendered when `uploadSuccess` is set (lines 149 and 190-195). No error
boundary is around the scanner, so React then removes the whole tree. -/
def crashed (s : State) : Bool :=
  s.uploadSuccess && (SuccessView s.previewUrl s.serverResponse).isNone

/-! ## The rendered controls (lines 147-205 and 473-480) -/

/-- The buttons of the component. -/
inductive Control where
  /-- "Capture", `onClick={captureImage}` -/
  | capture : Control
  /-- "Cancel", `onClick={handleClose}` -/
  | cancel : Control
  /-- "Upload", `onClick={upload} disabled={busy}` -/
  | upload : Control
  /-- "Retake", `onClick={retake} disabled={busy}` -/
  | retake : Control
  /-- "Close", `onClick={handleClose} disabled={busy}` -/
  | close : Control
  /-- "Upload Another" of `SuccessView`, `onClick={onRetake}` with `onRetake={retake}` -/
  | uploadAnother : Control
  /-- "Done" of `SuccessView`, `onClick={onClose}` with `onClose={handleClose}` -/
  | done : Control
deriving DecidableEq, Repr

/-- Whether the button is part of what is rendered for state `s`. -/
def rendered (ctl : Control) (s : State) : Bool :=
  match ctl with
  | Control.capture => !s.uploadSuccess && s.previewUrl == ""
  | Control.cancel => !s.uploadSuccess && s.previewUrl == ""
  | Control.upload => !s.uploadSuccess && s.previewUrl != ""
  | Control.retake => !s.uploadSuccess && s.previewUrl != ""
  | Control.close => !s.uploadSuccess && s.previewUrl != ""
  | Control.uploadAnother => s.uploadSuccess && !crashed s
  | Control.done => s.uploadSuccess && !crashed s

/-- The `disabled` attribute of the button. -/
def disabled (ctl : Control) (s : State) : Bool :=
  match ctl with
  | Control.upload => s.busy
  | Control.retake => s.busy
  | Control.close => s.busy
  | _ => false

/-- The component is on screen as long as `onClose` has not been called
(`Home.jsx` line 233: `showCamera && <CameraScanner onClose=... />`) and its
render has not thrown. -/
def onScreen (c : Config) : Bool :=
  c.env.closeCalls == 0 && !crashed c.st

/-- A click on the button reaches its handler. -/
def clickable (ctl : Control) (c : Config) : Bool :=
  onScreen c && rendered ctl c.st && !disabled ctl c.st

/-- The `onClick` of each button; `frame` is the size the video element
reports at that moment. -/
def handler (frame : Video) (ctl : Control) (c : Config) : Config :=
  match ctl with
  | Control.capture => captureImage (videoRef frame c.st) c
  | Control.cancel => handleClose c
  | Control.upload => upload c
  | Control.retake => retake c
  | Control.close => handleClose c
  | Control.uploadAnother => retake c
  | Control.done => handleClose c

/-- A click on a button: its handler runs when the click reaches it. -/
def click (frame : Video) (ctl : Control) (c : Config) : Config :=
  if clickable ctl c then handler frame ctl c else c

/-! ## Sessions -/

/-- What can happen to a mounted scanner. -/
inductive Event where
  /-- a click on a button -/
  | click (frame : Video) (ctl : Control) : Event
  /-- the file input fires `onChange` (the "Gallery" button only opens the
  file dialog, `openGallery`, and changes nothing itself) -/
  | pickFile (files : List File) : Event
  /-- an outstanding `getUserMedia` promise settles -/
  | cameraSettles (granted : Bool) : Event
  /-- the `i`-th outstanding `toBlob` callback runs -/
  | blobSettles (i : Nat) (blob : Option Blob) : Event
  /-- the outstanding upload resumes -/
  | uploadSettles (o : FetchOutcome) : Event

/-- One event. An event that cannot happen (a click that does not reach its
button, a settlement with nothing outstanding) leaves everything as it is. -/
def step (props : Props) (e : Event) (c : Config) : Config :=
  match e with
  | Event.click frame ctl => click frame ctl c
  | Event.pickFile files => if onScreen c then onPickFile files c else c
  | Event.cameraSettles granted =>
    if c.env.pendingCameras = 0 then c else startCameraResume granted c
  | Event.blobSettles i blob =>
    match c.env.pendingBlobs.get? i with
    | none => c
    | some cl =>
      toBlobCallback cl blob
        { c with env := { c.env with pendingBlobs := c.env.pendingBlobs.eraseIdx i } }
  | Event.uploadSettles o =>
    if c.env.inFlight = 0 then c else uploadResume props o c

/-- The scanner after the events `es`, from its mount. -/
def run (props : Props) (es : List Event) : Config :=
  es.foldl (fun c e => step props e c) mount

/-- A configuration the scanner can be in. -/
def Reachable (props : Props) (c : Config) : Prop :=
  ∃ es : List Event, run props es = c

/-! ## The modes of the specification -/

/-- The session holds a stream whose tracks are running. -/
def holdsLive (c : Config) : Bool :=
  match c.st.stream with
  | some sid => c.env.running.contains sid
  | none => false

/-- The `mode` of the specification. -/
inductive Mode where
  | ACQUIRING : Mode
  | LIVE : Mode
  | PREVIEW : Mode
  | UPLOADING : Mode
  | SUCCEEDED : Mode
deriving DecidableEq, Repr

/-- The mode a configuration is in, read off what the component renders: the
success view when `uploadSuccess`, the "Uploading…" label when `busy`, the
preview image when `previewUrl` is set, the video otherwise. -/
def mode (c : Config) : Mode :=
  if c.st.uploadSuccess then Mode.SUCCEEDED
  else if c.st.busy then Mode.UPLOADING
  else if c.st.previewUrl != "" then Mode.PREVIEW
  else if holdsLive c then Mode.LIVE
  else Mode.ACQUIRING

/-- The upload attempt did not succeed: no response, a response whose body
does not parse, or a response with a non-success status. -/
def FetchOutcome.failed (o : FetchOutcome) : Bool :=
  match o with
  | FetchOutcome.rejected _ => true
  | FetchOutcome.response _ (Body.unparseable _) => true
  | FetchOutcome.response status (Body.json _) => !ok status

/-- The Upload Result shape in the words of the specification (sections 3 and
6): a JSON object with at least a string `inserted_id` and a `data.products`
that maps product names to detail records. -/
def isUploadResult (j : Json) : Bool :=
  match j.get? "inserted_id", (j.get? "data").bind (fun d => d.get? "products") with
  | some (Json.str _), some (Json.obj products) =>
    products.all (fun kv => match kv.2 with | Json.obj _ => true | _ => false)
  | _, _ => false

/-- What holds of every configuration the scanner can be in: payload and
preview URL are set together, an upload is in flight exactly while `busy`,
and `busy` and `uploadSuccess` each imply a preview and exclude one another. -/
def SessionInv (c : Config) : Prop :=
  (c.st.capturedBlob ≠ none ↔ c.st.previewUrl ≠ "") ∧
  (c.st.busy = true →
    c.st.previewUrl ≠ "" ∧ c.st.uploadSuccess = false ∧ c.env.inFlight = 1) ∧
  (c.st.uploadSuccess = true → c.st.previewUrl ≠ "" ∧ c.st.busy = false) ∧
  (c.st.busy = false → c.env.inFlight = 0)

/-! ## Sample data -/

/-- The response of the scenario in section 8 of the specification. -/
def widgetResponse : Json :=
  Json.obj [("inserted_id", Json.str "abc123"),
    ("data", Json.obj [("products", Json.obj
      [("Widget", Json.obj [("quantity", Json.str "3"), ("price", Json.str "$9")])])])]

/-- A small encoded frame. -/
def sampleBlob : Blob := { type := "image/png", bytes := [137, 80, 78, 71] }

/-- A picked gallery file. -/
def sampleFile : File := { name := "receipt.jpg", type := "image/jpeg", bytes := [255, 216, 255] }

/-- A video element showing a 640 by 480 frame. -/
def sampleFrame : Video := { videoWidth := 640, videoHeight := 480 }

/-- Props with an `onProcessed` callback and no `meta`. -/
def sampleProps : Props := { onProcessed := true, meta := none }

/-- Camera granted, one frame captured and encoded: the scanner shows the
preview. -/
def capturedPreview : Config :=
  run sampleProps
    [Event.cameraSettles true, Event.click sampleFrame Control.capture,
     Event.blobSettles 0 (some sampleBlob)]

/-- A response in which the product "Widget" is mapped to `null`. -/
def nullProductResponse : Json :=
  Json.obj [("inserted_id", Json.str "abc123"),
    ("data", Json.obj [("products", Json.obj [("Widget", Json.null)])])]

/-- A response in which the `quantity` of "Widget" is an object. -/
def objectFieldResponse : Json :=
  Json.obj [("inserted_id", Json.str "abc123"),
    ("data", Json.obj [("products", Json.obj
      [("Widget", Json.obj [("quantity", Json.obj [("n", Json.num "1")])])])])]

/-- Camera denied, one file picked from the gallery: the scanner shows the
preview. -/
def pickedPreview : Config :=
  run sampleProps [Event.cameraSettles false, Event.pickFile [sampleFile]]

/-- A `meta` prop that differs from the literals of lines 115-117. -/
def sampleMeta : Meta := { user_id := "42", user_name := "Bao", pick_up_location := "B2" }

/-! ## Teardown (lines 46-52) -/

/-- The function returned by the mount effect (lines 48-51) in a render whose
state is `closure`: `stopCamera()` and the conditional `revokeObjectURL`, both
on the `stream` and `previewUrl` of that render. -/
def effectCleanup (closure : State) (w : World) : World :=
  revokeIfSet closure.previewUrl (stopCamera closure.stream w)

/-- React unmounts the component. The effect has the dependency list `[]`
(line 52), so it ran once, in the first render, and the cleanup that runs now
is the one that render returned: it closes over the state of the first
render. -/
def unmount (c : Config) : Config :=
  { c with env := effectCleanup State.initial c.env }

/-! ## Object URLs -/

/-- The `k`-th URL handed out by `createObjectURL`. -/
def urlOf (k : Nat) : String :=
  "blob:" ++ toString k

/-- Every object URL that is alive was handed out by `createObjectURL`. -/
def UrlsMinted (w : World) : Prop :=
  ∀ u, u ∈ w.liveUrls → ∃ k, k < w.urlSeq ∧ u = urlOf k

/-- Reads a decimal numeral back into the number it prints. -/
def decimalValue (cs : List Char) : Nat :=
  cs.foldl (fun a ch => 10 * a + (ch.toNat - 48)) 0

end CameraScanner

/-! # Tasks.jsx -/

namespace Tasks

/-- One element of the `tasks` state of `Tasks.jsx`. -/
structure Task where
  id : Int
  title : String
  completed : Bool
  priority : String
deriving DecidableEq, Repr

/-- The initial `tasks` (lines 7-12). -/
def initialTasks : List Task :=
  [{ id := 1, title := "Count warehouse items", completed := true, priority := "High" },
   { id := 2, title := "Update inventory system", completed := false, priority := "High" },
   { id := 3, title := "Order new supplies", completed := false, priority := "Medium" },
   { id := 4, title := "Review stock levels", completed := false, priority := "Low" }]

/-- The list that `toggleTask(id)` passes to `setTasks` (lines 14-18). -/
def toggleTask (id : Int) (tasks : List Task) : List Task :=
  tasks.map (fun task => if task.id = id then { task with completed := !task.completed } else task)

/-- `completedCount` (line 20). -/
def completedCount (tasks : List Task) : Nat :=
  (tasks.filter (fun t => t.completed)).length

end Tasks

/-! # Theorems -/

namespace CameraScanner

/-! ## Helper lemmas -/

theorem createObjectURL_fst_ne (w : World) : (createObjectURL w).1 ≠ "" := by
  intro h
  have h2 := congrArg String.length h
  simp [createObjectURL] at h2
  exact absurd h2.1 (by decide)

theorem revokeIfSet_inFlight (u : String) (w : World) : (revokeIfSet u w).inFlight = w.inFlight := by
  unfold revokeIfSet revokeObjectURL
  split <;> rfl

theorem stopCamera_inFlight (s : Option Nat) (w : World) : (stopCamera s w).inFlight = w.inFlight := by
  unfold stopCamera
  split <;> rfl

theorem createObjectURL_inFlight (w : World) : (createObjectURL w).2.inFlight = w.inFlight := rfl

theorem mount_inv : SessionInv mount := by
  simp [SessionInv, mount, startCamera, State.initial, World.initial]

theorem startCameraResume_inv (g : Bool) (c : Config) (h : SessionInv c) :
    SessionInv (startCameraResume g c) := by
  unfold startCameraResume
  split <;> exact h

theorem toBlobCallback_inv (cl : Snapshot) (b : Option Blob) (c : Config) (h : SessionInv c) :
    SessionInv (toBlobCallback cl b c) := by
  obtain ⟨h1, h2, h3, h4⟩ := h
  cases b with
  | none => exact ⟨h1, h2, h3, h4⟩
  | some b =>
    have hu := createObjectURL_fst_ne c.env
    simp only [toBlobCallback, SessionInv, stopCamera_inFlight, revokeIfSet_inFlight,
      createObjectURL_inFlight]
    refine ⟨by simp [hu], fun hb => ⟨hu, (h2 hb).2⟩, fun hs => ⟨hu, (h3 hs).2⟩, h4⟩

theorem onPickFile_inv (files : List File) (c : Config) (h : SessionInv c) :
    SessionInv (onPickFile files c) := by
  obtain ⟨h1, h2, h3, h4⟩ := h
  unfold onPickFile
  cases files.head? with
  | none => exact ⟨h1, h2, h3, h4⟩
  | some f =>
    have hu := createObjectURL_fst_ne (revokeIfSet c.st.previewUrl c.env)
    simp only [SessionInv, stopCamera_inFlight, revokeIfSet_inFlight,
      createObjectURL_inFlight]
    refine ⟨by simp [hu], fun hb => ⟨hu, (h2 hb).2⟩, fun hs => ⟨hu, (h3 hs).2⟩, h4⟩

theorem captureImage_inv (v : Option Video) (c : Config) (h : SessionInv c) :
    SessionInv (captureImage v c) := by
  unfold captureImage
  cases v <;> exact h

theorem handleClose_inv (c : Config) (h : SessionInv c) : SessionInv (handleClose c) := by
  obtain ⟨h1, h2, h3, h4⟩ := h
  simp only [SessionInv, handleClose, stopCamera_inFlight, revokeIfSet_inFlight]
  exact ⟨h1, h2, h3, h4⟩

theorem retake_inv (c : Config) (h : SessionInv c) (hb : c.st.busy = false) :
    SessionInv (retake c) := by
  obtain ⟨_, _, _, h4⟩ := h
  simp only [SessionInv, retake, startCamera, revokeIfSet_inFlight]
  simp [hb, h4]

theorem upload_inv (c : Config) (h : SessionInv c) (hb : c.st.busy = false)
    (hs : c.st.uploadSuccess = false) : SessionInv (upload c) := by
  obtain ⟨h1, h2, h3, h4⟩ := h
  unfold upload
  cases hc : c.st.capturedBlob with
  | none =>
    simp only [SessionInv]
    exact ⟨h1, h2, h3, h4⟩
  | some p =>
    have hp : c.st.previewUrl ≠ "" := h1.1 (by simp [hc])
    simp only [SessionInv]
    simp [hp, hs, h4 hb, hc]

theorem uploadResume_inv (props : Props) (o : FetchOutcome) (c : Config) (h : SessionInv c)
    (hf : c.env.inFlight ≠ 0) : SessionInv (uploadResume props o c) := by
  obtain ⟨h1, h2, h3, h4⟩ := h
  have hb : c.st.busy = true := by
    cases hbb : c.st.busy with
    | true => rfl
    | false => exact absurd (h4 hbb) hf
  obtain ⟨hp, hs, hi⟩ := h2 hb
  unfold uploadResume
  rcases o with msg | ⟨status, msg | payload⟩
  · simp [SessionInv, uploadCatch, h1, hs, hi]
  · simp [SessionInv, uploadCatch, h1, hs, hi]
  · by_cases hok : ok status = true
    · simp [SessionInv, hok, h1, hp, hi]
    · simp [SessionInv, hok, uploadCatch, h1, hs, hi]

theorem click_inv (frame : Video) (ctl : Control) (c : Config) (h : SessionInv c) :
    SessionInv (click frame ctl c) := by
  unfold click
  by_cases hc : clickable ctl c = true
  · rw [if_pos hc]
    simp only [clickable, Bool.and_eq_true, Bool.not_eq_true'] at hc
    obtain ⟨⟨_, hr⟩, hd⟩ := hc
    cases ctl with
    | capture => exact captureImage_inv _ c h
    | cancel => exact handleClose_inv c h
    | upload =>
      simp [rendered] at hr
      exact upload_inv c h (by simpa [disabled] using hd) hr.1
    | retake => exact retake_inv c h (by simpa [disabled] using hd)
    | close => exact handleClose_inv c h
    | uploadAnother =>
      have hs : c.st.uploadSuccess = true := by
        simp only [rendered, Bool.and_eq_true] at hr
        exact hr.1
      exact retake_inv c h (h.2.2.1 hs).2
    | done => exact handleClose_inv c h
  · rw [if_neg hc]; exact h

theorem step_inv (props : Props) (e : Event) (c : Config) (h : SessionInv c) :
    SessionInv (step props e c) := by
  cases e with
  | click frame ctl => exact click_inv frame ctl c h
  | pickFile files =>
    simp only [step]
    split
    · exact onPickFile_inv files c h
    · exact h
  | cameraSettles g =>
    simp only [step]
    split
    · exact h
    · exact startCameraResume_inv g c h
  | blobSettles i blob =>
    simp only [step]
    split
    · exact h
    · exact toBlobCallback_inv _ blob _ h
  | uploadSettles o =>
    simp only [step]
    split
    · exact h
    · next hf => exact uploadResume_inv props o c h hf

theorem foldl_inv (props : Props) (es : List Event) (c : Config) (h : SessionInv c) :
    SessionInv (es.foldl (fun c e => step props e c) c) := by
  induction es generalizing c with
  | nil => exact h
  | cons e es ih => exact ih _ (step_inv props e c h)

theorem run_inv (props : Props) (es : List Event) : SessionInv (run props es) :=
  foldl_inv props es mount mount_inv

theorem mode_payload_iff (c : Config) :
    (mode c = Mode.PREVIEW ∨ mode c = Mode.UPLOADING ∨ mode c = Mode.SUCCEEDED) ↔
      (c.st.previewUrl ≠ "" ∨ c.st.busy = true ∨ c.st.uploadSuccess = true) := by
  unfold mode
  cases c.st.uploadSuccess <;> cases c.st.busy <;> by_cases hp : c.st.previewUrl = "" <;>
    cases holdsLive c <;> simp [hp]

/-! ## C1: the payload invariant -/

/-- C1. In every configuration reachable from the mount of the scanner by
clicks on its buttons, file picks and the settling of camera acquisitions,
`toBlob` callbacks and uploads, `capturedBlob` is non-null if and only if
`previewUrl` is non-empty or `busy` or `uploadSuccess` holds, that is, if and
only if the mode is preview, uploading or succeeded. -/
theorem capturedBlob_iff_mode (props : Props) (c : Config) (h : Reachable props c) :
    (c.st.capturedBlob ≠ none ↔
      (c.st.previewUrl ≠ "" ∨ c.st.busy = true ∨ c.st.uploadSuccess = true)) ∧
    (c.st.capturedBlob ≠ none ↔
      (mode c = Mode.PREVIEW ∨ mode c = Mode.UPLOADING ∨ mode c = Mode.SUCCEEDED)) := by
  obtain ⟨es, rfl⟩ := h
  obtain ⟨h1, h2, h3, _⟩ := run_inv props es
  have key : (run props es).st.capturedBlob ≠ none ↔
      ((run props es).st.previewUrl ≠ "" ∨ (run props es).st.busy = true ∨
        (run props es).st.uploadSuccess = true) := by
    constructor
    · intro hb; exact Or.inl (h1.1 hb)
    · rintro (hp | hb | hs)
      · exact h1.2 hp
      · exact h1.2 (h2 hb).1
      · exact h1.2 (h3 hs).1
  exact ⟨key, key.trans (mode_payload_iff _).symm⟩

/-- C1 at the preview reached by one capture: the payload is set and the mode
is preview. -/
theorem capturedBlob_iff_mode_witness :
    Reachable sampleProps capturedPreview ∧
    capturedPreview.st.capturedBlob = some (Payload.blob sampleBlob) ∧
    mode capturedPreview = Mode.PREVIEW ∧
    ((capturedPreview.st.capturedBlob ≠ none ↔
      (capturedPreview.st.previewUrl ≠ "" ∨ capturedPreview.st.busy = true ∨
        capturedPreview.st.uploadSuccess = true)) ∧
    (capturedPreview.st.capturedBlob ≠ none ↔
      (mode capturedPreview = Mode.PREVIEW ∨ mode capturedPreview = Mode.UPLOADING ∨
        mode capturedPreview = Mode.SUCCEEDED))) :=
  ⟨⟨_, rfl⟩, rfl, rfl, capturedBlob_iff_mode sampleProps capturedPreview ⟨_, rfl⟩⟩

/-! ## C2: submitting without a payload -/

/-- C2. When `capturedBlob` is null, `upload` only sets `error` to the local
validation message: no request is issued, nothing is left in flight, every
other state cell and the whole environment stay as they were, and the run is
over at once whatever the network would have answered. -/
theorem upload_without_payload (c : Config) (h : c.st.capturedBlob = none) :
    upload c = { c with st := { c.st with error := noImageError } } ∧
    (upload c).st.error = "Please capture or select an image first." ∧
    (upload c).env.requests = c.env.requests ∧
    (upload c).env.inFlight = c.env.inFlight ∧
    (upload c).env = c.env ∧
    (upload c).st.busy = c.st.busy ∧
    (upload c).st.uploadSuccess = c.st.uploadSuccess ∧
    (upload c).st.serverResponse = c.st.serverResponse ∧
    (upload c).st.previewUrl = c.st.previewUrl ∧
    (upload c).st.capturedBlob = c.st.capturedBlob ∧
    (upload c).st.stream = c.st.stream ∧
    (∀ (props : Props) (o : FetchOutcome), uploadRun props o c = upload c) := by
  have hu : upload c = { c with st := { c.st with error := noImageError } } := by
    unfold upload; rw [h]
  have hrun : ∀ (props : Props) (o : FetchOutcome), uploadRun props o c = upload c := by
    intro props o
    simp [uploadRun, h]
  refine ⟨hu, ?_, ?_, ?_, ?_, ?_, ?_, ?_, ?_, ?_, ?_, hrun⟩
  all_goals (rw [hu])
  rfl

/-- C2 at the freshly mounted scanner, which has no payload. -/
theorem upload_without_payload_witness :
    mount.st.capturedBlob = none ∧
    (upload mount).st.error = "Please capture or select an image first." ∧
    (upload mount).env.requests = [] ∧
    (upload mount).st.busy = false :=
  have h := upload_without_payload mount rfl
  ⟨rfl, h.2.1, h.2.2.1, h.2.2.2.2.2.1⟩

/-! ## C3: one request per submit -/

theorem click_upload_busy (frame : Video) (c : Config) (hb : c.st.busy = true) :
    click frame Control.upload c = c := by
  simp [click, clickable, disabled, hb]

/-- C3. From a preview with a payload in which the "Upload" button can be
clicked, the first click issues exactly one request and sets `busy`; every
further sequence of clicks on the button before the request completes is
ignored: the configuration, and with it the list of requests issued, stays
what it was after the first click. Accordingly no reachable configuration has
more than one upload in flight. -/
theorem repeated_submit_single_request (frame : Video) (c : Config) (b : Payload)
    (hclick : clickable Control.upload c = true) (hb : c.st.capturedBlob = some b)
    (more : List Video) :
    (click frame Control.upload c).st.busy = true ∧
    (click frame Control.upload c).env.requests = c.env.requests ++
      [{ url := "https://prologis-hackathon.onrender.com/process-image", method := "POST",
         form := uploadForm b }] ∧
    (click frame Control.upload c).env.inFlight = c.env.inFlight + 1 ∧
    clickable Control.upload (click frame Control.upload c) = false ∧
    more.foldl (fun x f => click f Control.upload x) (click frame Control.upload c) =
      click frame Control.upload c ∧
    (more.foldl (fun x f => click f Control.upload x)
      (click frame Control.upload c)).env.requests.length = c.env.requests.length + 1 ∧
    (∀ (props : Props) (es : List Event), (run props es).env.inFlight ≤ 1) := by
  have h1 : click frame Control.upload c = upload c := by
    simp [click, hclick, handler]
  have h2 : upload c =
      { st := { c.st with error := "", busy := true },
        env := { c.env with
          requests := c.env.requests ++
            [{ url := API ++ "/process-image", method := "POST", form := uploadForm b }],
          inFlight := c.env.inFlight + 1 } } := by
    unfold upload; rw [hb]
  have hbusy : (click frame Control.upload c).st.busy = true := by rw [h1, h2]
  have hfold : ∀ (l : List Video) (x : Config), x.st.busy = true →
      l.foldl (fun x f => click f Control.upload x) x = x := by
    intro l
    induction l with
    | nil => intro x _; rfl
    | cons f l ih =>
      intro x hx
      rw [List.foldl_cons, click_upload_busy f x hx]
      exact ih x hx
  refine ⟨hbusy, ?_, ?_, ?_, hfold more _ hbusy, ?_, ?_⟩
  · rw [h1, h2]; rfl
  · rw [h1, h2]
  · simp [clickable, disabled, hbusy]
  · rw [hfold more _ hbusy, h1, h2]; simp
  · intro props es
    obtain ⟨_, i2, _, i4⟩ := run_inv props es
    cases hbb : (run props es).st.busy with
    | true => exact le_of_eq (i2 hbb).2.2
    | false => rw [i4 hbb]; exact Nat.zero_le 1

/-- C3 at the preview reached by one capture: three more clicks after the
first still leave one request. -/
theorem repeated_submit_single_request_witness :
    clickable Control.upload capturedPreview = true ∧
    ([sampleFrame, sampleFrame, sampleFrame].foldl (fun x f => click f Control.upload x)
      (click sampleFrame Control.upload capturedPreview)).env.requests.length = 1 :=
  ⟨rfl, (repeated_submit_single_request sampleFrame capturedPreview (Payload.blob sampleBlob)
    rfl rfl [sampleFrame, sampleFrame, sampleFrame]).2.2.2.2.2.1⟩

/-! ## C4: closing while an upload is in flight -/

theorem revokeIfSet_closeCalls (u : String) (w : World) :
    (revokeIfSet u w).closeCalls = w.closeCalls := by
  by_cases h : u = "" <;> simp [revokeIfSet, revokeObjectURL, h]

theorem stopCamera_closeCalls (s : Option Nat) (w : World) :
    (stopCamera s w).closeCalls = w.closeCalls := by
  cases s <;> rfl

theorem handleClose_closeCalls (c : Config) :
    (handleClose c).env.closeCalls = c.env.closeCalls + 1 := by
  simp [handleClose, revokeIfSet_closeCalls, stopCamera_closeCalls]

theorem handleClose_inFlight (c : Config) :
    (handleClose c).env.inFlight = c.env.inFlight := by
  simp [handleClose, revokeIfSet_inFlight, stopCamera_inFlight]

theorem not_onScreen_of_closed (c : Config) (h : c.env.closeCalls ≠ 0) : onScreen c = false := by
  simp [onScreen, h]

/-- A step of a closed scanner leaves it closed and starts no upload. -/
theorem step_of_closed (props : Props) (e : Event) (c : Config) (hc : c.env.closeCalls ≠ 0) :
    (step props e c).env.closeCalls = c.env.closeCalls ∧
    (step props e c).env.inFlight ≤ c.env.inFlight := by
  have hoff := not_onScreen_of_closed c hc
  cases e with
  | click frame ctl => simp [step, click, clickable, hoff]
  | pickFile files => simp [step, hoff]
  | cameraSettles g =>
    simp only [step, startCameraResume]
    split
    · exact ⟨rfl, Nat.le_refl _⟩
    · split <;> exact ⟨rfl, Nat.le_refl _⟩
  | blobSettles i blob =>
    simp only [step]
    split
    · exact ⟨rfl, Nat.le_refl _⟩
    · cases blob with
      | none => exact ⟨rfl, Nat.le_refl _⟩
      | some b =>
        simp [toBlobCallback, stopCamera_closeCalls, revokeIfSet_closeCalls,
          stopCamera_inFlight, revokeIfSet_inFlight, createObjectURL]
  | uploadSettles o =>
    simp only [step]
    split
    · exact ⟨rfl, Nat.le_refl _⟩
    · rcases o with msg | ⟨status, msg | payload⟩
      · exact ⟨rfl, Nat.sub_le _ _⟩
      · exact ⟨rfl, Nat.sub_le _ _⟩
      · simp only [uploadResume]
        split <;> exact ⟨rfl, Nat.sub_le _ _⟩

/-- A step of an open scanner closes it only when nothing is in flight. -/
theorem step_closes_idle (props : Props) (e : Event) (c : Config) (h : SessionInv c)
    (hopen : c.env.closeCalls = 0) (hclosed : (step props e c).env.closeCalls ≠ 0) :
    (step props e c).env.inFlight = 0 := by
  obtain ⟨_, h2, h3, h4⟩ := h
  have hidle : c.st.busy = false → (handleClose c).env.inFlight = 0 := by
    intro hb
    rw [handleClose_inFlight]
    exact h4 hb
  cases e with
  | click frame ctl =>
    simp only [step, click] at hclosed ⊢
    by_cases hcl : clickable ctl c = true
    · rw [if_pos hcl] at hclosed ⊢
      simp only [clickable, Bool.and_eq_true, Bool.not_eq_true'] at hcl
      obtain ⟨⟨_, hr⟩, hd⟩ := hcl
      cases ctl with
      | capture =>
        exfalso
        apply hclosed
        simp only [handler, captureImage]
        split <;> exact hopen
      | cancel =>
        apply hidle
        cases hb : c.st.busy with
        | false => rfl
        | true =>
          have hp := (h2 hb).1
          simp [rendered, hp] at hr
      | upload =>
        exfalso
        apply hclosed
        simp only [handler, upload]
        split <;> exact hopen
      | retake =>
        exfalso
        apply hclosed
        simp [handler, retake, startCamera, revokeIfSet_closeCalls, hopen]
      | close => exact hidle (by simpa [disabled] using hd)
      | uploadAnother =>
        exfalso
        apply hclosed
        simp [handler, retake, startCamera, revokeIfSet_closeCalls, hopen]
      | done =>
        apply hidle
        have hs : c.st.uploadSuccess = true := by
          simp only [rendered, Bool.and_eq_true] at hr
          exact hr.1
        exact (h3 hs).2
    · rw [if_neg hcl] at hclosed
      exact absurd hopen hclosed
  | pickFile files =>
    exfalso
    apply hclosed
    simp only [step, onPickFile]
    split
    · split
      · exact hopen
      · simp [stopCamera_closeCalls, createObjectURL, revokeIfSet_closeCalls, hopen]
    · exact hopen
  | cameraSettles g =>
    exfalso
    apply hclosed
    simp only [step, startCameraResume]
    split
    · exact hopen
    · split <;> exact hopen
  | blobSettles i blob =>
    exfalso
    apply hclosed
    simp only [step]
    split
    · exact hopen
    · cases blob with
      | none => exact hopen
      | some b =>
        simp [toBlobCallback, stopCamera_closeCalls, revokeIfSet_closeCalls, createObjectURL,
          hopen]
  | uploadSettles o =>
    exfalso
    apply hclosed
    simp only [step]
    split
    · exact hopen
    · rcases o with msg | ⟨status, msg | payload⟩
      · exact hopen
      · exact hopen
      · simp only [uploadResume]
        split <;> exact hopen

theorem foldl_closed_idle (props : Props) (es : List Event) (c : Config) (h : SessionInv c)
    (hc : c.env.closeCalls ≠ 0 → c.env.inFlight = 0)
    (hclosed : (es.foldl (fun c e => step props e c) c).env.closeCalls ≠ 0) :
    (es.foldl (fun c e => step props e c) c).env.inFlight = 0 := by
  induction es generalizing c with
  | nil => exact hc hclosed
  | cons e es ih =>
    refine ih (step props e c) (step_inv props e c h) ?_ hclosed
    intro hs
    by_cases hopen : c.env.closeCalls = 0
    · exact step_closes_idle props e c h hopen hs
    · have := (step_of_closed props e c hopen).2
      rw [hc hopen] at this
      exact Nat.le_zero.mp this

theorem foldl_stays_closed (props : Props) (es : List Event) (c : Config)
    (hc : c.env.closeCalls ≠ 0) :
    (es.foldl (fun c e => step props e c) c).env.closeCalls ≠ 0 := by
  induction es generalizing c with
  | nil => exact hc
  | cons e es ih =>
    apply ih
    rw [(step_of_closed props e c hc).1]
    exact hc

/-- C4. `handleClose` never runs while an upload is in flight: in every
configuration the scanner can reach with `busy` set, `onClose` has not been
called and none of the three buttons that run `handleClose` ("Cancel",
"Close", "Done") can be clicked. So once `handleClose` has run, nothing is in
flight, `busy` is false, and this stays so whatever happens afterwards: no
result of an upload is left to arrive, and the arrival of a network result,
successful or failed, changes no state cell and calls no `onProcessed`. -/
theorem closed_session_ignores_result (props : Props) (es : List Event) (o : FetchOutcome)
    (hclosed : (run props es).env.closeCalls ≠ 0) :
    (run props es).env.inFlight = 0 ∧
    (run props es).st.busy = false ∧
    step props (Event.uploadSettles o) (run props es) = run props es ∧
    (∀ later : List Event,
      (run props (es ++ later)).env.closeCalls ≠ 0 ∧
      (run props (es ++ later)).env.inFlight = 0 ∧
      (run props (es ++ later ++ [Event.uploadSettles o])).st = (run props (es ++ later)).st ∧
      (run props (es ++ later ++ [Event.uploadSettles o])).env.processed =
        (run props (es ++ later)).env.processed) ∧
    (∀ before : List Event, (run props before).st.busy = true →
      (run props before).env.closeCalls = 0 ∧
      clickable Control.cancel (run props before) = false ∧
      clickable Control.close (run props before) = false ∧
      clickable Control.done (run props before) = false) := by
  have hidle : ∀ l : List Event, (run props l).env.closeCalls ≠ 0 →
      (run props l).env.inFlight = 0 := by
    intro l hl
    exact foldl_closed_idle props l mount mount_inv (fun hm => absurd rfl hm) hl
  have hnoop : ∀ l : List Event, (run props l).env.closeCalls ≠ 0 →
      step props (Event.uploadSettles o) (run props l) = run props l := by
    intro l hl
    simp [step, hidle l hl]
  have hbusy : ∀ l : List Event, (run props l).env.closeCalls ≠ 0 →
      (run props l).st.busy = false := by
    intro l hl
    cases hb : (run props l).st.busy with
    | false => rfl
    | true =>
      have h1 := ((run_inv props l).2.1 hb).2.2
      rw [hidle l hl] at h1
      exact absurd h1 (by decide)
  refine ⟨hidle es hclosed, hbusy es hclosed, hnoop es hclosed, ?_, ?_⟩
  · intro later
    have hl : (run props (es ++ later)).env.closeCalls ≠ 0 := by
      simp only [run, List.foldl_append]
      exact foldl_stays_closed props later _ hclosed
    have hstep : run props (es ++ later ++ [Event.uploadSettles o]) =
        step props (Event.uploadSettles o) (run props (es ++ later)) := by
      simp [run, List.foldl_append]
    refine ⟨hl, hidle _ hl, ?_, ?_⟩
    · rw [hstep, hnoop _ hl]
    · rw [hstep, hnoop _ hl]
  · intro before hb
    obtain ⟨hp, hs, _⟩ := (run_inv props before).2.1 hb
    have hz : (run props before).env.closeCalls = 0 := by
      by_cases hz : (run props before).env.closeCalls = 0
      · exact hz
      · have := hbusy before hz
        rw [hb] at this
        exact absurd this (by decide)
    refine ⟨hz, ?_, ?_, ?_⟩
    · simp [clickable, rendered, hp]
    · simp [clickable, disabled, hb]
    · simp [clickable, rendered, hs]

/-- C4 at a scanner closed with "Cancel" after one capture click: the encoding
and a network result that arrive afterwards find nothing in flight, and the
result changes nothing. -/
theorem closed_session_ignores_result_witness :
    (run sampleProps [Event.cameraSettles true, Event.click sampleFrame Control.capture,
      Event.click sampleFrame Control.cancel]).env.closeCalls ≠ 0 ∧
    step sampleProps (Event.uploadSettles (FetchOutcome.response 200 (Body.json widgetResponse)))
      (run sampleProps [Event.cameraSettles true, Event.click sampleFrame Control.capture,
        Event.click sampleFrame Control.cancel]) =
      run sampleProps [Event.cameraSettles true, Event.click sampleFrame Control.capture,
        Event.click sampleFrame Control.cancel] ∧
    (run sampleProps ([Event.cameraSettles true, Event.click sampleFrame Control.capture,
      Event.click sampleFrame Control.cancel] ++ [Event.blobSettles 0 (some sampleBlob)] ++
      [Event.uploadSettles (FetchOutcome.response 200 (Body.json widgetResponse))])
      ).env.processed = [] :=
  have h := closed_session_ignores_result sampleProps
    [Event.cameraSettles true, Event.click sampleFrame Control.capture,
      Event.click sampleFrame Control.cancel]
    (FetchOutcome.response 200 (Body.json widgetResponse)) (by decide)
  ⟨by decide, h.2.2.1, ((h.2.2.2.1 [Event.blobSettles 0 (some sampleBlob)]).2.2.2).trans rfl⟩

/-! ## C5: a successful upload -/

/-- C5. With a payload set and a response of success status whose body parses
to `p`, a run of `upload` issues one request and ends with `uploadSuccess`
true, `serverResponse = p`, `error` empty and `busy` false; `capturedBlob` and
`previewUrl` are kept, the mode is succeeded, and `onProcessed` is called once
with `p` when it was provided and not at all otherwise. In particular a
capture followed by a submit that is answered with the body of the scenario
ends in the succeeded mode with that body as `serverResponse`. -/
theorem upload_success (props : Props) (c : Config) (b : Payload) (status : Nat) (p : Json)
    (hb : c.st.capturedBlob = some b) (hok : ok status = true) :
    (uploadRun props (FetchOutcome.response status (Body.json p)) c).st.uploadSuccess = true ∧
    (uploadRun props (FetchOutcome.response status (Body.json p)) c).st.serverResponse = p ∧
    (uploadRun props (FetchOutcome.response status (Body.json p)) c).st.error = "" ∧
    (uploadRun props (FetchOutcome.response status (Body.json p)) c).st.busy = false ∧
    (uploadRun props (FetchOutcome.response status (Body.json p)) c).st.capturedBlob = some b ∧
    (uploadRun props (FetchOutcome.response status (Body.json p)) c).st.previewUrl =
      c.st.previewUrl ∧
    (uploadRun props (FetchOutcome.response status (Body.json p)) c).env.processed =
      (if props.onProcessed then c.env.processed ++ [p] else c.env.processed) ∧
    (uploadRun props (FetchOutcome.response status (Body.json p)) c).env.requests.length =
      c.env.requests.length + 1 ∧
    mode (uploadRun props (FetchOutcome.response status (Body.json p)) c) = Mode.SUCCEEDED ∧
    (∀ (frame : Video) (blob : Blob),
      mode (run props
        [Event.cameraSettles true, Event.click frame Control.capture,
         Event.blobSettles 0 (some blob), Event.click frame Control.upload,
         Event.uploadSettles (FetchOutcome.response 200 (Body.json widgetResponse))])
        = Mode.SUCCEEDED ∧
      (run props
        [Event.cameraSettles true, Event.click frame Control.capture,
         Event.blobSettles 0 (some blob), Event.click frame Control.upload,
         Event.uploadSettles (FetchOutcome.response 200 (Body.json widgetResponse))]
        ).st.serverResponse = widgetResponse ∧
      (run props
        [Event.cameraSettles true, Event.click frame Control.capture,
         Event.blobSettles 0 (some blob), Event.click frame Control.upload,
         Event.uploadSettles (FetchOutcome.response 200 (Body.json widgetResponse))]
        ).st.capturedBlob = some (Payload.blob blob)) := by
  have hrun : uploadRun props (FetchOutcome.response status (Body.json p)) c =
      uploadResume props (FetchOutcome.response status (Body.json p)) (upload c) := by
    simp [uploadRun, hb]
  have hup : upload c =
      { st := { c.st with error := "", busy := true },
        env := { c.env with
          requests := c.env.requests ++
            [{ url := API ++ "/process-image", method := "POST", form := uploadForm b }],
          inFlight := c.env.inFlight + 1 } } := by
    unfold upload; rw [hb]
  rw [hrun, hup]
  refine ⟨?_, ?_, ?_, ?_, ?_, ?_, ?_, ?_, ?_, ?_⟩
  · simp [uploadResume, hok]
  · simp [uploadResume, hok]
  · simp [uploadResume, hok]
  · simp [uploadResume, hok]
  · simp [uploadResume, hok, hb]
  · simp [uploadResume, hok]
  · simp [uploadResume, hok]
  · simp [uploadResume, hok]
  · simp [uploadResume, hok, mode]
  · intro frame blob
    exact ⟨rfl, rfl, rfl⟩

/-- C5 at the preview reached by one capture, answered with status 200 and
the body of the scenario. -/
theorem upload_success_witness :
    capturedPreview.st.capturedBlob = some (Payload.blob sampleBlob) ∧
    ok 200 = true ∧
    (uploadRun sampleProps (FetchOutcome.response 200 (Body.json widgetResponse))
      capturedPreview).st.serverResponse = widgetResponse ∧
    (uploadRun sampleProps (FetchOutcome.response 200 (Body.json widgetResponse))
      capturedPreview).env.processed = [widgetResponse] ∧
    mode (uploadRun sampleProps (FetchOutcome.response 200 (Body.json widgetResponse))
      capturedPreview) = Mode.SUCCEEDED :=
  have h := upload_success sampleProps capturedPreview (Payload.blob sampleBlob) 200
    widgetResponse rfl rfl
  ⟨rfl, rfl, h.2.1, h.2.2.2.2.2.2.1, h.2.2.2.2.2.2.2.2.1⟩

/-! ## C6: a response with a non-success status -/

/-- C6, as stated, fails. The preview reached by one capture is submitted and
answered with status 500 and no JSON body, so that `res.json()` rejects with
the parser's message before `res.ok` is looked at: `error` is that message,
not "Upload failed". -/
theorem upload_rejected_counterexample :
    ok 500 = false ∧
    (uploadRun sampleProps
      (FetchOutcome.response 500 (Body.unparseable "Unexpected end of JSON input"))
      capturedPreview).st.error = "Unexpected end of JSON input" ∧
    (uploadRun sampleProps
      (FetchOutcome.response 500 (Body.unparseable "Unexpected end of JSON input"))
      capturedPreview).st.error ≠ "Upload failed" :=
  ⟨rfl, rfl, by decide⟩

/-- C6 as amended. With a payload set and a response of non-success status:
when the body parses and carries a non-empty string `message`, `error` is that
message ("disk full" for status 500 with the body of the scenario); when the
body parses and has no `message`, or an empty or otherwise falsy one, `error`
is "Upload failed"; when the body does not parse, `error` is the message of
the parse error, and "Upload failed" only if that message is empty. In each
case `uploadSuccess` is left as it was and `onProcessed` is not called. -/
theorem upload_rejected (props : Props) (c : Config) (b : Payload) (status : Nat)
    (hb : c.st.capturedBlob = some b) (hok : ok status = false) :
    (∀ (p : Json) (m : String), p.get? "message" = some (Json.str m) → m ≠ "" →
      (uploadRun props (FetchOutcome.response status (Body.json p)) c).st.error = m) ∧
    (∀ p : Json, p.get? "message" = none →
      (uploadRun props (FetchOutcome.response status (Body.json p)) c).st.error =
        "Upload failed") ∧
    (∀ (p v : Json), p.get? "message" = some v → v.truthy = false →
      (uploadRun props (FetchOutcome.response status (Body.json p)) c).st.error =
        "Upload failed") ∧
    (∀ msg : String,
      (uploadRun props (FetchOutcome.response status (Body.unparseable msg)) c).st.error =
        if msg ≠ "" then msg else "Upload failed") ∧
    (uploadRun props
      (FetchOutcome.response 500 (Body.json (Json.obj [("message", Json.str "disk full")])))
      c).st.error = "disk full" ∧
    (∀ body : Body,
      (uploadRun props (FetchOutcome.response status body) c).st.uploadSuccess =
        c.st.uploadSuccess ∧
      (uploadRun props (FetchOutcome.response status body) c).env.processed =
        c.env.processed) := by
  have hrun : ∀ o : FetchOutcome, uploadRun props o c = uploadResume props o (upload c) := by
    intro o; simp [uploadRun, hb]
  have hup : upload c =
      { st := { c.st with error := "", busy := true },
        env := { c.env with
          requests := c.env.requests ++
            [{ url := API ++ "/process-image", method := "POST", form := uploadForm b }],
          inFlight := c.env.inFlight + 1 } } := by
    unfold upload; rw [hb]
  refine ⟨?_, ?_, ?_, ?_, ?_, ?_⟩
  · intro p m hm hne
    rw [hrun, hup]
    simp [uploadResume, hok, uploadCatch, rejectionMessage, hm, orElse, Json.truthy,
      Json.toJsString, hne]
  · intro p hm
    rw [hrun, hup]
    simp [uploadResume, hok, uploadCatch, rejectionMessage, hm, orElse, Json.toJsString,
      uploadFailed]
  · intro p v hm hv
    rw [hrun, hup]
    simp [uploadResume, hok, uploadCatch, rejectionMessage, hm, orElse, hv, Json.toJsString,
      uploadFailed]
  · intro msg
    rw [hrun, hup]
    by_cases hmsg : msg = "" <;> simp [uploadResume, uploadCatch, hmsg, uploadFailed]
  · rw [hrun, hup]
    rfl
  · intro body
    rw [hrun, hup]
    cases body with
    | unparseable msg => exact ⟨rfl, rfl⟩
    | json p => simp [uploadResume, hok, uploadCatch]

/-- C6 as amended, at the preview reached by one capture, answered with
status 500 and the body of the scenario. -/
theorem upload_rejected_witness :
    capturedPreview.st.capturedBlob = some (Payload.blob sampleBlob) ∧
    ok 500 = false ∧
    (uploadRun sampleProps
      (FetchOutcome.response 500 (Body.json (Json.obj [("message", Json.str "disk full")])))
      capturedPreview).st.error = "disk full" :=
  ⟨rfl, rfl,
    (upload_rejected sampleProps capturedPreview (Payload.blob sampleBlob) 500 rfl rfl).1
      (Json.obj [("message", Json.str "disk full")]) "disk full" rfl (by decide)⟩

/-! ## C7: a failed upload returns to the preview -/

theorem uploadCatch_error_ne (msg : String) (s : State) : (uploadCatch msg s).error ≠ "" := by
  unfold uploadCatch
  by_cases h : msg = ""
  · simp [h, uploadFailed]
  · simp [h]

theorem mode_preview (c : Config) (hmode : mode c = Mode.PREVIEW) :
    c.st.uploadSuccess = false ∧ c.st.busy = false ∧ c.st.previewUrl ≠ "" := by
  unfold mode at hmode
  cases hs : c.st.uploadSuccess <;> cases hb : c.st.busy <;>
    by_cases hp : c.st.previewUrl = "" <;> cases hl : holdsLive c <;>
    simp [hs, hb, hp, hl] at hmode ⊢

/-- C7. From a preview with a payload, a run of `upload` whose attempt fails
(no response, a non-success status, or a body that does not parse) ends in
the preview mode again: `busy` and `uploadSuccess` are false, `serverResponse`
is unchanged, `error` is a non-empty message, `capturedBlob` and `previewUrl`
are what they were before, `onProcessed` has not been called, and the
"Upload" and "Retake" buttons can be clicked again. The part of `upload` that
runs when the failure arrives writes neither `capturedBlob` nor `previewUrl`,
whatever they are by then. -/
theorem upload_failure_returns_to_preview (props : Props) (c : Config) (b : Payload)
    (o : FetchOutcome) (hmode : mode c = Mode.PREVIEW) (hb : c.st.capturedBlob = some b)
    (hfail : o.failed = true) :
    (uploadRun props o c).st.busy = false ∧
    (uploadRun props o c).st.uploadSuccess = false ∧
    (uploadRun props o c).st.serverResponse = c.st.serverResponse ∧
    (uploadRun props o c).st.error ≠ "" ∧
    (uploadRun props o c).st.capturedBlob = some b ∧
    (uploadRun props o c).st.previewUrl = c.st.previewUrl ∧
    (uploadRun props o c).env.processed = c.env.processed ∧
    mode (uploadRun props o c) = Mode.PREVIEW ∧
    (onScreen c = true →
      clickable Control.upload (uploadRun props o c) = true ∧
      clickable Control.retake (uploadRun props o c) = true) ∧
    (∀ d : Config,
      (uploadResume props o d).st.capturedBlob = d.st.capturedBlob ∧
      (uploadResume props o d).st.previewUrl = d.st.previewUrl) := by
  obtain ⟨hs, _, hp⟩ := mode_preview c hmode
  have hframe : ∀ d : Config,
      (uploadResume props o d).st.capturedBlob = d.st.capturedBlob ∧
      (uploadResume props o d).st.previewUrl = d.st.previewUrl := by
    intro d
    rcases o with msg | ⟨status, msg | payload⟩
    · exact ⟨rfl, rfl⟩
    · exact ⟨rfl, rfl⟩
    · cases hst : ok status <;> simp [uploadResume, hst, uploadCatch]
  have hrun : uploadRun props o c = uploadResume props o (upload c) := by
    simp [uploadRun, hb]
  have hup : upload c =
      { st := { c.st with error := "", busy := true },
        env := { c.env with
          requests := c.env.requests ++
            [{ url := API ++ "/process-image", method := "POST", form := uploadForm b }],
          inFlight := c.env.inFlight + 1 } } := by
    unfold upload; rw [hb]
  have hres : ∃ msg : String, uploadResume props o (upload c) =
      { st := { uploadCatch msg { c.st with error := "", busy := true } with busy := false },
        env := { c.env with
          requests := c.env.requests ++
            [{ url := API ++ "/process-image", method := "POST", form := uploadForm b }],
          inFlight := c.env.inFlight + 1 - 1 } } := by
    rw [hup]
    rcases o with msg | ⟨status, msg | payload⟩
    · exact ⟨msg, rfl⟩
    · exact ⟨msg, rfl⟩
    · have hnok : ok status = false := by simpa [FetchOutcome.failed] using hfail
      exact ⟨rejectionMessage payload, by simp [uploadResume, hnok]⟩
  obtain ⟨msg, hmsg⟩ := hres
  rw [hrun, hmsg]
  have herr := uploadCatch_error_ne msg { c.st with error := "", busy := true }
  refine ⟨rfl, hs, rfl, herr, hb, rfl, rfl, ?_, ?_, hframe⟩
  · simp [mode, uploadCatch, hs, hp]
  · intro hon
    simp only [onScreen, Bool.and_eq_true, beq_iff_eq] at hon
    simp [clickable, onScreen, crashed, rendered, disabled, uploadCatch, hs, hp, hon.1]

/-- C7 at the preview reached by one capture, for a request that gets no
response. -/
theorem upload_failure_returns_to_preview_witness :
    mode capturedPreview = Mode.PREVIEW ∧
    capturedPreview.st.capturedBlob = some (Payload.blob sampleBlob) ∧
    (FetchOutcome.rejected "Failed to fetch").failed = true ∧
    (uploadRun sampleProps (FetchOutcome.rejected "Failed to fetch") capturedPreview).st.error
      ≠ "" ∧
    mode (uploadRun sampleProps (FetchOutcome.rejected "Failed to fetch") capturedPreview)
      = Mode.PREVIEW :=
  have h := upload_failure_returns_to_preview sampleProps capturedPreview
    (Payload.blob sampleBlob) (FetchOutcome.rejected "Failed to fetch") rfl rfl rfl
  ⟨rfl, rfl, rfl, h.2.2.2.1, h.2.2.2.2.2.2.2.1⟩

/-! ## C8: a success status with an unusable body -/

/-- C8, as stated, fails. The preview reached by one capture is submitted and
answered with status 200 and the body `null`, and again with the body of an
empty object. Neither body has the Upload Result shape, yet each run ends with
`uploadSuccess` true, an empty `error`, the success view rendered and
`onProcessed` called with the body. -/
theorem malformed_success_counterexample :
    isUploadResult Json.null = false ∧
    isUploadResult (Json.obj []) = false ∧
    (uploadRun sampleProps (FetchOutcome.response 200 (Body.json Json.null))
      capturedPreview).st.uploadSuccess = true ∧
    (uploadRun sampleProps (FetchOutcome.response 200 (Body.json Json.null))
      capturedPreview).st.error = "" ∧
    (uploadRun sampleProps (FetchOutcome.response 200 (Body.json Json.null))
      capturedPreview).env.processed = [Json.null] ∧
    rendered Control.done (uploadRun sampleProps
      (FetchOutcome.response 200 (Body.json Json.null)) capturedPreview).st = true ∧
    (uploadRun sampleProps (FetchOutcome.response 200 (Body.json (Json.obj [])))
      capturedPreview).st.uploadSuccess = true ∧
    (uploadRun sampleProps (FetchOutcome.response 200 (Body.json (Json.obj [])))
      capturedPreview).env.processed = [Json.obj []] :=
  ⟨rfl, rfl, rfl, rfl, rfl, rfl, rfl, rfl⟩

/-- C8 as amended. From a preview with a payload, a response of success
status whose body cannot be parsed as JSON at all is a failed attempt:
`uploadSuccess` stays false, `error` is a non-empty message (the parse error's
own, or "Upload failed" if that is empty), the success view is not rendered
and `onProcessed` is not called. -/
theorem malformed_success_is_failure (props : Props) (c : Config) (b : Payload)
    (status : Nat) (msg : String) (hmode : mode c = Mode.PREVIEW)
    (hb : c.st.capturedBlob = some b) (_hok : ok status = true) :
    (uploadRun props (FetchOutcome.response status (Body.unparseable msg)) c).st.uploadSuccess
      = false ∧
    (uploadRun props (FetchOutcome.response status (Body.unparseable msg)) c).st.error ≠ "" ∧
    (uploadRun props (FetchOutcome.response status (Body.unparseable msg)) c).st.error =
      (if msg ≠ "" then msg else "Upload failed") ∧
    mode (uploadRun props (FetchOutcome.response status (Body.unparseable msg)) c)
      ≠ Mode.SUCCEEDED ∧
    rendered Control.done
      (uploadRun props (FetchOutcome.response status (Body.unparseable msg)) c).st = false ∧
    rendered Control.uploadAnother
      (uploadRun props (FetchOutcome.response status (Body.unparseable msg)) c).st = false ∧
    (uploadRun props (FetchOutcome.response status (Body.unparseable msg)) c).env.processed =
      c.env.processed := by
  obtain ⟨hs, _, hp⟩ := mode_preview c hmode
  have hrun : uploadRun props (FetchOutcome.response status (Body.unparseable msg)) c =
      uploadResume props (FetchOutcome.response status (Body.unparseable msg)) (upload c) := by
    simp [uploadRun, hb]
  have hup : upload c =
      { st := { c.st with error := "", busy := true },
        env := { c.env with
          requests := c.env.requests ++
            [{ url := API ++ "/process-image", method := "POST", form := uploadForm b }],
          inFlight := c.env.inFlight + 1 } } := by
    unfold upload; rw [hb]
  rw [hrun, hup]
  have herr := uploadCatch_error_ne msg { c.st with error := "", busy := true }
  refine ⟨hs, herr, ?_, ?_, ?_, ?_, rfl⟩
  · by_cases hmsg : msg = "" <;> simp [uploadResume, uploadCatch, hmsg, uploadFailed]
  · simp [mode, uploadResume, uploadCatch, hs, hp]
  · simp [rendered, uploadResume, uploadCatch, hs]
  · simp [rendered, uploadResume, uploadCatch, hs]

/-- C8 as amended, at the preview reached by one capture, answered with
status 200 and an HTML page. -/
theorem malformed_success_is_failure_witness :
    mode capturedPreview = Mode.PREVIEW ∧
    ok 200 = true ∧
    (uploadRun sampleProps
      (FetchOutcome.response 200 (Body.unparseable "Unexpected token < in JSON at position 0"))
      capturedPreview).st.uploadSuccess = false ∧
    (uploadRun sampleProps
      (FetchOutcome.response 200 (Body.unparseable "Unexpected token < in JSON at position 0"))
      capturedPreview).env.processed = [] :=
  have h := malformed_success_is_failure sampleProps capturedPreview (Payload.blob sampleBlob)
    200 "Unexpected token < in JSON at position 0" rfl rfl rfl
  ⟨rfl, rfl, h.1, h.2.2.2.2.2.2⟩

/-! ## C9: retake -/

theorem revokeIfSet_revoked (u : String) (w : World) (h : u ≠ "") :
    u ∉ (revokeIfSet u w).liveUrls ∧ (revokeIfSet u w).revokedUrls = w.revokedUrls ++ [u] := by
  simp [revokeIfSet, revokeObjectURL, h]

theorem revokeIfSet_running (u : String) (w : World) :
    (revokeIfSet u w).running = w.running ∧ (revokeIfSet u w).streamSeq = w.streamSeq ∧
    (revokeIfSet u w).acquisitions = w.acquisitions ∧
    (revokeIfSet u w).pendingCameras = w.pendingCameras := by
  by_cases h : u = "" <;> simp [revokeIfSet, revokeObjectURL, h]

/-- C9. From every configuration, `retake` revokes the current preview URL
when there is one, sets `previewUrl` to empty, `capturedBlob` and
`serverResponse` to null, `uploadSuccess` to false and `error` to empty,
leaves the other cells alone and starts one camera acquisition. When that
acquisition is granted the session holds the new stream, which is running, and
`error` is still empty; when it is denied no stream is stored or started,
`error` is the device-access message, and the session holds no running stream
unless it already held one. Either way it ends holding a running stream or
with none and the device-access message; when no upload is in flight the mode
is live in the first case and, if no running stream was held before, acquiring
in the second. "Upload Another" runs the same function as "Retake". -/
theorem retake_resets_and_reacquires (c : Config) (frame : Video) :
    (c.st.previewUrl ≠ "" →
      c.st.previewUrl ∉ (retake c).env.liveUrls ∧
      (retake c).env.revokedUrls = c.env.revokedUrls ++ [c.st.previewUrl]) ∧
    (retake c).st.previewUrl = "" ∧
    (retake c).st.capturedBlob = none ∧
    (retake c).st.error = "" ∧
    (retake c).st.uploadSuccess = false ∧
    (retake c).st.serverResponse = Json.null ∧
    (retake c).st.stream = c.st.stream ∧
    (retake c).st.busy = c.st.busy ∧
    (retake c).env.acquisitions = c.env.acquisitions + 1 ∧
    (retake c).env.pendingCameras = c.env.pendingCameras + 1 ∧
    (retake c).env.running = c.env.running ∧
    ((startCameraResume true (retake c)).st.stream = some c.env.streamSeq ∧
      (startCameraResume true (retake c)).env.running = c.env.running ++ [c.env.streamSeq] ∧
      (startCameraResume true (retake c)).env.srcObject = some c.env.streamSeq ∧
      holdsLive (startCameraResume true (retake c)) = true ∧
      (startCameraResume true (retake c)).st.error = "" ∧
      (startCameraResume true (retake c)).st.previewUrl = "" ∧
      (startCameraResume true (retake c)).st.capturedBlob = none) ∧
    ((startCameraResume false (retake c)).st.stream = c.st.stream ∧
      (startCameraResume false (retake c)).env.running = c.env.running ∧
      (startCameraResume false (retake c)).env.streamSeq = c.env.streamSeq ∧
      (startCameraResume false (retake c)).st.error = deviceAccessError ∧
      (startCameraResume false (retake c)).st.previewUrl = "" ∧
      (startCameraResume false (retake c)).st.capturedBlob = none ∧
      holdsLive (startCameraResume false (retake c)) = holdsLive c) ∧
    (∀ granted : Bool,
      holdsLive (startCameraResume granted (retake c)) = true ∨
      (holdsLive (startCameraResume granted (retake c)) = false ∧
        (startCameraResume granted (retake c)).st.error = deviceAccessError)) ∧
    (c.st.busy = false → mode (startCameraResume true (retake c)) = Mode.LIVE) ∧
    (c.st.busy = false → holdsLive c = false →
      mode (startCameraResume false (retake c)) = Mode.ACQUIRING) ∧
    handler frame Control.uploadAnother c = handler frame Control.retake c ∧
    handler frame Control.retake c = retake c := by
  obtain ⟨hr1, hr2, hr3, hr4⟩ := revokeIfSet_running c.st.previewUrl c.env
  have hgrant : holdsLive (startCameraResume true (retake c)) = true := by
    simp [holdsLive, startCameraResume, retake, startCamera]
  have hdeny : holdsLive (startCameraResume false (retake c)) = holdsLive c := by
    simp [holdsLive, startCameraResume, retake, startCamera, hr1]
  refine ⟨?_, rfl, rfl, rfl, rfl, rfl, rfl, rfl, ?_, ?_, ?_, ⟨?_, ?_, ?_, hgrant, ?_, ?_, ?_⟩,
    ⟨?_, ?_, ?_, ?_, ?_, ?_, hdeny⟩, ?_, ?_, ?_, rfl, rfl⟩
  · intro h
    exact revokeIfSet_revoked c.st.previewUrl c.env h
  · simp [retake, startCamera, hr3]
  · simp [retake, startCamera, hr4]
  · simp [retake, startCamera, hr1]
  · simp [startCameraResume, retake, startCamera, hr2]
  · simp [startCameraResume, retake, startCamera, hr1, hr2]
  · simp [startCameraResume, retake, startCamera, hr2, videoMounted]
  · simp [startCameraResume, retake, startCamera]
  · simp [startCameraResume, retake, startCamera]
  · simp [startCameraResume, retake, startCamera]
  · simp [startCameraResume, retake, startCamera]
  · simp [startCameraResume, retake, startCamera, hr1]
  · simp [startCameraResume, retake, startCamera, hr2]
  · simp [startCameraResume, retake, startCamera]
  · simp [startCameraResume, retake, startCamera]
  · simp [startCameraResume, retake, startCamera]
  · intro granted
    cases granted with
    | true => exact Or.inl hgrant
    | false =>
      cases hl : holdsLive c with
      | true => exact Or.inl (hdeny.trans hl)
      | false =>
        refine Or.inr ⟨hdeny.trans hl, ?_⟩
        simp [startCameraResume, retake, startCamera]
  · intro hbz
    have e1 : (startCameraResume true (retake c)).st.uploadSuccess = false := by
      simp [startCameraResume, retake, startCamera]
    have e2 : (startCameraResume true (retake c)).st.busy = false := by
      simp [startCameraResume, retake, startCamera, hbz]
    have e3 : (startCameraResume true (retake c)).st.previewUrl = "" := by
      simp [startCameraResume, retake, startCamera]
    simp [mode, e1, e2, e3, hgrant]
  · intro hbz hl
    have e1 : (startCameraResume false (retake c)).st.uploadSuccess = false := by
      simp [startCameraResume, retake, startCamera]
    have e2 : (startCameraResume false (retake c)).st.busy = false := by
      simp [startCameraResume, retake, startCamera, hbz]
    have e3 : (startCameraResume false (retake c)).st.previewUrl = "" := by
      simp [startCameraResume, retake, startCamera]
    simp [mode, e1, e2, e3, hdeny, hl]

/-- C9 at the preview reached by one capture: `retake` revokes its URL
"blob:0", and a granted acquisition leaves the session holding a running
stream. -/
theorem retake_resets_and_reacquires_witness :
    capturedPreview.st.previewUrl = "blob:0" ∧
    (retake capturedPreview).env.liveUrls = [] ∧
    (retake capturedPreview).env.revokedUrls = ["blob:0"] ∧
    (retake capturedPreview).st.capturedBlob = none ∧
    holdsLive (startCameraResume true (retake capturedPreview)) = true :=
  have h := retake_resets_and_reacquires capturedPreview sampleFrame
  ⟨by decide, by decide, by decide, h.2.2.1, h.2.2.2.2.2.2.2.2.2.2.2.1.2.2.2.1⟩

/-! ## C10: a denied camera and the gallery fallback -/

/-- C10. When the acquisition started by `startCamera` is denied, no stream is
stored or started (`stream` is what it was, so it stays null after the mount),
the session does not come to hold a running stream, and `error` is the
device-access message. From that configuration `onPickFile` with a selected
file sets `capturedBlob` to that file and `previewUrl` to a non-empty URL; in
the scanner that was just mounted and denied the camera, the file input's
change event then leads to the preview mode. -/
theorem denied_camera_allows_file_pick (c : Config) (file : File) (others : List File)
    (props : Props) :
    (startCameraResume false (startCamera c)).st.stream = c.st.stream ∧
    (startCameraResume false (startCamera c)).env.running = c.env.running ∧
    holdsLive (startCameraResume false (startCamera c)) = holdsLive c ∧
    (startCameraResume false (startCamera c)).st.error =
      "Camera access denied or unavailable. You can upload a photo from your gallery." ∧
    (startCameraResume false mount).st.stream = none ∧
    mode (startCameraResume false mount) = Mode.ACQUIRING ∧
    (onPickFile (file :: others) (startCameraResume false (startCamera c))).st.capturedBlob =
      some (Payload.file file) ∧
    (onPickFile (file :: others) (startCameraResume false (startCamera c))).st.previewUrl
      ≠ "" ∧
    run props [Event.cameraSettles false] = startCameraResume false mount ∧
    (run props [Event.cameraSettles false, Event.pickFile (file :: others)]).st.capturedBlob =
      some (Payload.file file) ∧
    (run props [Event.cameraSettles false, Event.pickFile (file :: others)]).st.previewUrl
      = "blob:0" ∧
    (run props [Event.cameraSettles false, Event.pickFile (file :: others)]).st.stream
      = none ∧
    mode (run props [Event.cameraSettles false, Event.pickFile (file :: others)])
      = Mode.PREVIEW := by
  refine ⟨rfl, rfl, rfl, rfl, rfl, rfl, rfl, ?_, rfl, rfl, ?_, rfl, ?_⟩
  · exact createObjectURL_fst_ne _
  · with_unfolding_all rfl
  · rfl

/-! ## C11: which actions clear the error -/

/-- C11, as stated, fails. With the camera denied, `error` holds the
device-access message. A file picked from the gallery leads to the preview
with that message still in `error`; so does a capture of the empty video
element once its blob arrives. -/
theorem error_cleared_counterexample :
    (run sampleProps [Event.cameraSettles false]).st.error = deviceAccessError ∧
    (run sampleProps [Event.cameraSettles false, Event.pickFile [sampleFile]]).st.capturedBlob
      = some (Payload.file sampleFile) ∧
    (run sampleProps [Event.cameraSettles false, Event.pickFile [sampleFile]]).st.error
      = deviceAccessError ∧
    (run sampleProps [Event.cameraSettles false, Event.click sampleFrame Control.capture,
      Event.blobSettles 0 (some sampleBlob)]).st.capturedBlob
      = some (Payload.blob sampleBlob) ∧
    (run sampleProps [Event.cameraSettles false, Event.click sampleFrame Control.capture,
      Event.blobSettles 0 (some sampleBlob)]).st.error = deviceAccessError ∧
    deviceAccessError ≠ "" :=
  ⟨rfl, rfl, rfl, rfl, rfl, by decide⟩

/-- C11 as amended. After `retake`, and after the start of a submit with a
payload, `error` is the empty string, whatever it was before. -/
theorem error_cleared_by_retake_and_submit (c : Config) (b : Payload)
    (hb : c.st.capturedBlob = some b) :
    (retake c).st.error = "" ∧
    (upload c).st.error = "" ∧
    (∀ d : Config, (retake d).st.error = "") := by
  refine ⟨rfl, ?_, fun _ => rfl⟩
  unfold upload
  rw [hb]

/-- C11 as amended, at the preview reached by a gallery pick after the camera
was denied, where `error` is set. -/
theorem error_cleared_by_retake_and_submit_witness :
    pickedPreview.st.error ≠ "" ∧
    pickedPreview.st.capturedBlob = some (Payload.file sampleFile) ∧
    (retake pickedPreview).st.error = "" ∧
    (upload pickedPreview).st.error = "" :=
  have h := error_cleared_by_retake_and_submit pickedPreview (Payload.file sampleFile) rfl
  ⟨by decide, rfl, h.1, h.2.1⟩

/-! ## C12: camera streams left running -/

/-- C12 fails on the code. A file is picked while the first acquisition is
still outstanding, the acquisition is then granted, "Retake" starts a second
one and that is granted too: the first stream was never stopped, so two
streams acquired by the session have running tracks, and the session holds
only the second. Closing the scanner then stops the second and leaves the
first running. -/
theorem two_streams_running :
    (run sampleProps [Event.pickFile [sampleFile], Event.cameraSettles true,
      Event.click sampleFrame Control.retake, Event.cameraSettles true]).env.running
      = [0, 1] ∧
    (run sampleProps [Event.pickFile [sampleFile], Event.cameraSettles true,
      Event.click sampleFrame Control.retake, Event.cameraSettles true]).st.stream
      = some 1 ∧
    (run sampleProps [Event.pickFile [sampleFile], Event.cameraSettles true,
      Event.click sampleFrame Control.retake, Event.cameraSettles true,
      Event.click sampleFrame Control.cancel]).env.running = [0] ∧
    (run sampleProps [Event.pickFile [sampleFile], Event.cameraSettles true,
      Event.click sampleFrame Control.retake, Event.cameraSettles true,
      Event.click sampleFrame Control.cancel]).env.closeCalls = 1 :=
  ⟨rfl, rfl, rfl, rfl⟩

/-! ## C13: a capture that leaves the held stream running -/

theorem stopCamera_not_running (sid : Nat) (w : World) :
    sid ∉ (stopCamera (some sid) w).running := by
  simp [stopCamera]

theorem revokeIfSet_running_eq (u : String) (w : World) :
    (revokeIfSet u w).running = w.running := by
  by_cases h : u = "" <;> simp [revokeIfSet, revokeObjectURL, h]

theorem get?_append_length {α : Type} (l : List α) (a : α) :
    (l ++ [a]).get? l.length = some a := by
  induction l with
  | nil => rfl
  | cons x xs _ => simp

theorem eraseIdx_append_length {α : Type} (l : List α) (a : α) :
    (l ++ [a]).eraseIdx l.length = l := by
  induction l with
  | nil => rfl
  | cons x xs ih => simp [List.eraseIdx, ih]

/-- The canvas size of line 58-61. -/
theorem captureImage_some (v : Video) (c : Config) :
    captureImage (some v) c =
      { c with env := { c.env with
          pendingBlobs := c.env.pendingBlobs ++
            [{ previewUrl := c.st.previewUrl, stream := c.st.stream,
               width := if v.videoWidth = 0 then 1280 else v.videoWidth,
               height := if v.videoHeight = 0 then 720 else v.videoHeight }] } } := rfl

theorem step_blobSettles_after_capture (props : Props) (v : Video) (blob : Option Blob)
    (c : Config) :
    step props (Event.blobSettles c.env.pendingBlobs.length blob) (captureImage (some v) c) =
      toBlobCallback
        { previewUrl := c.st.previewUrl, stream := c.st.stream,
          width := if v.videoWidth = 0 then 1280 else v.videoWidth,
          height := if v.videoHeight = 0 then 720 else v.videoHeight } blob c := by
  rw [captureImage_some]
  simp only [step, get?_append_length, eraseIdx_append_length]

/-- C13 fails on the code. "Capture" is clicked before the camera is granted,
so its `toBlob` callback closes over `stream = null`; the grant then arrives
and the session is in live mode holding the running stream 0. When the blob
arrives the callback's `stopCamera()` stops nothing: the session is in preview
and stream 0, which it still holds, is still running. From the same live
configuration `onPickFile` and `handleClose` do stop stream 0. -/
theorem stale_capture_keeps_stream :
    mode (run sampleProps [Event.click sampleFrame Control.capture,
      Event.cameraSettles true]) = Mode.LIVE ∧
    (run sampleProps [Event.click sampleFrame Control.capture,
      Event.cameraSettles true]).st.stream = some 0 ∧
    (run sampleProps [Event.click sampleFrame Control.capture,
      Event.cameraSettles true]).env.pendingBlobs =
      [{ previewUrl := "", stream := none, width := 640, height := 480 }] ∧
    mode (run sampleProps [Event.click sampleFrame Control.capture,
      Event.cameraSettles true, Event.blobSettles 0 (some sampleBlob)]) = Mode.PREVIEW ∧
    (run sampleProps [Event.click sampleFrame Control.capture,
      Event.cameraSettles true, Event.blobSettles 0 (some sampleBlob)]).st.stream = some 0 ∧
    (run sampleProps [Event.click sampleFrame Control.capture,
      Event.cameraSettles true, Event.blobSettles 0 (some sampleBlob)]).env.running = [0] ∧
    holdsLive (run sampleProps [Event.click sampleFrame Control.capture,
      Event.cameraSettles true, Event.blobSettles 0 (some sampleBlob)]) = true ∧
    (run sampleProps [Event.click sampleFrame Control.capture,
      Event.cameraSettles true, Event.pickFile [sampleFile]]).env.running = [] ∧
    (run sampleProps [Event.click sampleFrame Control.capture,
      Event.cameraSettles true, Event.click sampleFrame Control.cancel]).env.running = [] :=
  ⟨rfl, rfl, rfl, rfl, rfl, rfl, rfl, rfl, rfl⟩

/-! ## C14: teardown -/

/-- C14 fails on the code. The cleanup of the mount effect closes over the
first render, whose `stream` is null and whose `previewUrl` is empty, so it
stops nothing and revokes nothing: unmounting changes no configuration. When
the live scanner holding the running stream 0 is unmounted, stream 0 is still
running; when the preview reached by one capture is unmounted, its URL
"blob:0" is still alive. -/
theorem unmount_releases_nothing :
    (∀ c : Config, unmount c = c) ∧
    (run sampleProps [Event.cameraSettles true]).st.stream = some 0 ∧
    (unmount (run sampleProps [Event.cameraSettles true])).env.running = [0] ∧
    capturedPreview.st.previewUrl = "blob:0" ∧
    (unmount capturedPreview).env.liveUrls = ["blob:0"] ∧
    (unmount capturedPreview).env.revokedUrls = [] :=
  ⟨fun _ => rfl, rfl, rfl, by decide, by decide, rfl⟩

/-! ## C15: the submission metadata -/

/-- C15 fails on the code. With the `meta` prop set to user 42, "Bao", "B2",
the request issued for the preview reached by one capture carries the literals
"1", "Aayush" and "A7"; `upload` does not read the prop at all, so the three
parts are these literals for every payload. -/
theorem metadata_is_hard_coded :
    (∀ p : Payload,
      (uploadForm p).lookup "user_id" = some (Part.text "1") ∧
      (uploadForm p).lookup "user_name" = some (Part.text "Aayush") ∧
      (uploadForm p).lookup "pick_up_location" = some (Part.text "A7")) ∧
    (run { onProcessed := true, meta := some sampleMeta }
      [Event.cameraSettles true, Event.click sampleFrame Control.capture,
       Event.blobSettles 0 (some sampleBlob),
       Event.click sampleFrame Control.upload]).env.requests =
      [{ url := "https://prologis-hackathon.onrender.com/process-image", method := "POST",
         form := [("file", Part.file { name := "scan.png", type := "image/png",
                                       bytes := sampleBlob.bytes }),
                  ("user_id", Part.text "1"), ("user_name", Part.text "Aayush"),
                  ("pick_up_location", Part.text "A7")] }] ∧
    Part.text sampleMeta.user_id ≠ Part.text "1" ∧
    Part.text sampleMeta.user_name ≠ Part.text "Aayush" ∧
    Part.text sampleMeta.pick_up_location ≠ Part.text "A7" :=
  ⟨fun _ => ⟨rfl, rfl, rfl⟩, by decide, by decide, by decide, by decide⟩

/-! ## C16: the file part of the request -/

/-- C16. With a payload set, `upload` issues one request to the processing
endpoint whose `file` part is the payload itself, name and media type
included, when the payload is a `File`, and is otherwise a file named
"scan.png" of type "image/png" whose bytes are those of the captured blob. -/
theorem upload_file_part (c : Config) (p : Payload) (hp : c.st.capturedBlob = some p) :
    (upload c).env.requests = c.env.requests ++
      [{ url := "https://prologis-hackathon.onrender.com/process-image", method := "POST",
         form := uploadForm p }] ∧
    (uploadForm p).lookup "file" = some (Part.file (uploadFile p)) ∧
    ((uploadForm p).filter (fun kv => kv.1 == "file")).length = 1 ∧
    (∀ f : File, p = Payload.file f → uploadFile p = f) ∧
    (∀ b : Blob, p = Payload.blob b →
      uploadFile p = { name := "scan.png", type := "image/png", bytes := b.bytes }) := by
  refine ⟨?_, rfl, rfl, ?_, ?_⟩
  · unfold upload
    rw [hp]
    rfl
  · intro f hf; rw [hf]; rfl
  · intro b hb; rw [hb]; rfl

/-- C16 at the two sample previews: a captured blob is sent as "scan.png", a
picked file as itself. -/
theorem upload_file_part_witness :
    capturedPreview.st.capturedBlob = some (Payload.blob sampleBlob) ∧
    (upload capturedPreview).env.requests =
      [{ url := "https://prologis-hackathon.onrender.com/process-image", method := "POST",
         form := uploadForm (Payload.blob sampleBlob) }] ∧
    uploadFile (Payload.blob sampleBlob) =
      { name := "scan.png", type := "image/png", bytes := [137, 80, 78, 71] } ∧
    uploadFile (Payload.file sampleFile) = sampleFile :=
  have h := upload_file_part capturedPreview (Payload.blob sampleBlob) rfl
  ⟨rfl, h.1, h.2.2.2.2 sampleBlob rfl,
    (upload_file_part pickedPreview (Payload.file sampleFile) rfl).2.2.2.1 sampleFile rfl⟩

/-! ## Object URLs are pairwise different -/

theorem digitChar_value (k : Nat) (h : k < 10) : (Nat.digitChar k).toNat - 48 = k := by
  interval_cases k <;> rfl

theorem toDigitsCore_foldl (fuel : Nat) :
    ∀ (n : Nat) (ds : List Char), n < fuel →
      (Nat.toDigitsCore 10 fuel n ds).foldl (fun a ch => 10 * a + (ch.toNat - 48)) 0 =
        ds.foldl (fun a ch => 10 * a + (ch.toNat - 48)) n := by
  induction fuel with
  | zero => intro n ds h; exact absurd h (Nat.not_lt_zero n)
  | succ fuel ih =>
    intro n ds h
    unfold Nat.toDigitsCore
    by_cases hz : n / 10 = 0
    · simp only [hz, if_true, List.foldl_cons]
      have hn : n < 10 := by omega
      rw [Nat.mod_eq_of_lt hn, digitChar_value n hn]
      simp
    · simp only [hz, if_false]
      rw [ih (n / 10) _ (by omega), List.foldl_cons,
        digitChar_value (n % 10) (Nat.mod_lt n (by decide))]
      congr 1
      omega

theorem decimalValue_toString (n : Nat) : decimalValue (toString n).data = n := by
  have h := toDigitsCore_foldl (n + 1) n [] (Nat.lt_succ_self n)
  simpa [decimalValue, toString, Nat.repr, Nat.toDigits, List.asString] using h

theorem urlOf_injective (a b : Nat) (h : urlOf a = urlOf b) : a = b := by
  have hd : (urlOf a).data = (urlOf b).data := by rw [h]
  simp only [urlOf, String.data_append] at hd
  have ht := List.append_cancel_left hd
  have := congrArg decimalValue ht
  rwa [decimalValue_toString, decimalValue_toString] at this

theorem urlsMinted_congr (w w' : World) (hl : w'.liveUrls = w.liveUrls)
    (hs : w'.urlSeq = w.urlSeq) (h : UrlsMinted w) : UrlsMinted w' := by
  intro u hu
  rw [hl] at hu
  rw [hs]
  exact h u hu

theorem urlsMinted_create (w : World) (h : UrlsMinted w) :
    UrlsMinted (createObjectURL w).2 := by
  intro u hu
  simp only [createObjectURL, List.mem_append, List.mem_singleton] at hu
  rcases hu with hu | hu
  · obtain ⟨k, hk, rfl⟩ := h u hu
    exact ⟨k, Nat.lt_succ_of_lt hk, rfl⟩
  · exact ⟨w.urlSeq, Nat.lt_succ_self _, hu⟩

theorem urlsMinted_revoke (u : String) (w : World) (h : UrlsMinted w) :
    UrlsMinted (revokeIfSet u w) := by
  intro x hx
  by_cases hu : u = ""
  · simp only [revokeIfSet, hu, bne_self_eq_false, Bool.false_eq_true, if_false] at hx
    simpa [revokeIfSet, hu] using h x hx
  · have hx' : x ∈ w.liveUrls := by
      simp only [revokeIfSet, revokeObjectURL] at hx
      simp only [bne_iff_ne, ne_eq, hu, not_false_eq_true, if_true] at hx
      exact (List.mem_filter.mp hx).1
    simpa [revokeIfSet, revokeObjectURL, hu] using h x hx'

theorem urlsMinted_stop (s : Option Nat) (w : World) (h : UrlsMinted w) :
    UrlsMinted (stopCamera s w) := by
  cases s with
  | none => exact h
  | some sid => exact urlsMinted_congr w _ rfl rfl h

theorem step_urlsMinted (props : Props) (e : Event) (c : Config) (h : UrlsMinted c.env) :
    UrlsMinted (step props e c).env := by
  cases e with
  | click frame ctl =>
    simp only [step, click]
    split
    · cases ctl with
      | capture =>
        simp only [handler, captureImage]
        split
        · exact h
        · exact urlsMinted_congr c.env _ rfl rfl h
      | cancel => exact urlsMinted_congr _ _ rfl rfl (urlsMinted_revoke _ _ (urlsMinted_stop _ _ h))
      | upload =>
        simp only [handler, upload]
        split
        · exact h
        · exact urlsMinted_congr c.env _ rfl rfl h
      | retake => exact urlsMinted_congr _ _ rfl rfl (urlsMinted_revoke c.st.previewUrl _ h)
      | close => exact urlsMinted_congr _ _ rfl rfl (urlsMinted_revoke _ _ (urlsMinted_stop _ _ h))
      | uploadAnother =>
        exact urlsMinted_congr _ _ rfl rfl (urlsMinted_revoke c.st.previewUrl _ h)
      | done => exact urlsMinted_congr _ _ rfl rfl (urlsMinted_revoke _ _ (urlsMinted_stop _ _ h))
    · exact h
  | pickFile files =>
    simp only [step, onPickFile]
    split
    · split
      · exact h
      · exact urlsMinted_stop _ _ (urlsMinted_create _ (urlsMinted_revoke _ _ h))
    · exact h
  | cameraSettles g =>
    simp only [step, startCameraResume]
    split
    · exact h
    · split
      · exact urlsMinted_congr c.env _ rfl rfl h
      · exact urlsMinted_congr c.env _ rfl rfl h
  | blobSettles i blob =>
    simp only [step]
    split
    · exact h
    · cases blob with
      | none => exact urlsMinted_congr c.env _ rfl rfl h
      | some b =>
        exact urlsMinted_stop _ _ (urlsMinted_revoke _ _ (urlsMinted_create _
          (urlsMinted_congr c.env _ rfl rfl h)))
  | uploadSettles o =>
    simp only [step]
    split
    · exact h
    · rcases o with msg | ⟨status, msg | payload⟩
      · exact urlsMinted_congr c.env _ rfl rfl h
      · exact urlsMinted_congr c.env _ rfl rfl h
      · simp only [uploadResume]
        split
        · exact urlsMinted_congr c.env _ rfl rfl h
        · exact urlsMinted_congr c.env _ rfl rfl h

theorem foldl_urlsMinted (props : Props) (es : List Event) (c : Config)
    (h : UrlsMinted c.env) : UrlsMinted (es.foldl (fun c e => step props e c) c).env := by
  induction es generalizing c with
  | nil => exact h
  | cons e es ih => exact ih _ (step_urlsMinted props e c h)

theorem run_urlsMinted (props : Props) (es : List Event) : UrlsMinted (run props es).env :=
  foldl_urlsMinted props es mount (fun _ hu => absurd hu (List.not_mem_nil _))

theorem step_previewMinted (props : Props) (e : Event) (c : Config)
    (h : c.st.previewUrl = "" ∨ ∃ k, k < c.env.urlSeq ∧ c.st.previewUrl = urlOf k) :
    (step props e c).st.previewUrl = "" ∨
      ∃ k, k < (step props e c).env.urlSeq ∧ (step props e c).st.previewUrl = urlOf k := by
  have hrev : ∀ (u : String) (w : World), (revokeIfSet u w).urlSeq = w.urlSeq := by
    intro u w
    by_cases hu : u = "" <;> simp [revokeIfSet, revokeObjectURL, hu]
  have hstop : ∀ (s : Option Nat) (w : World), (stopCamera s w).urlSeq = w.urlSeq := by
    intro s w
    cases s <;> rfl
  cases e with
  | click frame ctl =>
    simp only [step, click]
    split
    · cases ctl with
      | capture =>
        simp only [handler, captureImage]
        split <;> exact h
      | cancel => simpa [handler, handleClose, hrev, hstop] using h
      | upload =>
        simp only [handler, upload]
        split <;> exact h
      | retake => exact Or.inl rfl
      | close => simpa [handler, handleClose, hrev, hstop] using h
      | uploadAnother => exact Or.inl rfl
      | done => simpa [handler, handleClose, hrev, hstop] using h
    · exact h
  | pickFile files =>
    simp only [step, onPickFile]
    split
    · split
      · exact h
      · refine Or.inr ⟨c.env.urlSeq, ?_, ?_⟩
        · simp [hstop, createObjectURL, hrev]
        · simp [createObjectURL, hrev, urlOf]
    · exact h
  | cameraSettles g =>
    simp only [step, startCameraResume]
    split
    · exact h
    · split <;> exact h
  | blobSettles i blob =>
    simp only [step]
    split
    · exact h
    · cases blob with
      | none => exact h
      | some b =>
        refine Or.inr ⟨c.env.urlSeq, ?_, ?_⟩
        · simp [toBlobCallback, hstop, createObjectURL, hrev]
        · simp [toBlobCallback, createObjectURL, urlOf]
  | uploadSettles o =>
    simp only [step]
    split
    · exact h
    · rcases o with msg | ⟨status, msg | payload⟩
      · exact h
      · exact h
      · simp only [uploadResume]
        split <;> exact h

theorem run_previewMinted (props : Props) (es : List Event) :
    (run props es).st.previewUrl = "" ∨
      ∃ k, k < (run props es).env.urlSeq ∧ (run props es).st.previewUrl = urlOf k := by
  have key : ∀ (l : List Event) (c : Config),
      (c.st.previewUrl = "" ∨ ∃ k, k < c.env.urlSeq ∧ c.st.previewUrl = urlOf k) →
      ((l.foldl (fun c e => step props e c) c).st.previewUrl = "" ∨
        ∃ k, k < (l.foldl (fun c e => step props e c) c).env.urlSeq ∧
          (l.foldl (fun c e => step props e c) c).st.previewUrl = urlOf k) := by
    intro l
    induction l with
    | nil => intro c h; exact h
    | cons e l ih => intro c h; exact ih _ (step_previewMinted props e c h)
  exact key es mount (Or.inl rfl)

/-! ## C17: picking a file -/

/-- C17. `onPickFile` with a selected file first revokes the previous preview
URL if there is one, then creates a URL, then stops the held stream if there
is one. Afterwards `previewUrl` is the newly created URL, which is non-empty,
alive, and different from every URL created before; `capturedBlob` is the
selected file; the other state cells are untouched. In a reachable
configuration the new URL was not alive before, and a previous preview URL is
no longer alive afterwards. With no file selected nothing changes. -/
theorem onPickFile_replaces_preview (props : Props) (c : Config) (file : File)
    (others : List File) :
    (onPickFile (file :: others) c).env =
      stopCamera c.st.stream (createObjectURL (revokeIfSet c.st.previewUrl c.env)).2 ∧
    (c.st.previewUrl ≠ "" →
      (onPickFile (file :: others) c).env.revokedUrls =
        c.env.revokedUrls ++ [c.st.previewUrl]) ∧
    (c.st.previewUrl = "" →
      (onPickFile (file :: others) c).env.revokedUrls = c.env.revokedUrls) ∧
    (onPickFile (file :: others) c).st.previewUrl = urlOf c.env.urlSeq ∧
    (onPickFile (file :: others) c).st.previewUrl ≠ "" ∧
    (∀ k, k < c.env.urlSeq → (onPickFile (file :: others) c).st.previewUrl ≠ urlOf k) ∧
    (onPickFile (file :: others) c).st.previewUrl ∈ (onPickFile (file :: others) c).env.liveUrls ∧
    (onPickFile (file :: others) c).env.urlSeq = c.env.urlSeq + 1 ∧
    (onPickFile (file :: others) c).st.capturedBlob = some (Payload.file file) ∧
    (∀ sid, c.st.stream = some sid → sid ∉ (onPickFile (file :: others) c).env.running) ∧
    (c.st.stream = none → (onPickFile (file :: others) c).env.running = c.env.running) ∧
    ((onPickFile (file :: others) c).st.stream = c.st.stream ∧
      (onPickFile (file :: others) c).st.busy = c.st.busy ∧
      (onPickFile (file :: others) c).st.error = c.st.error ∧
      (onPickFile (file :: others) c).st.uploadSuccess = c.st.uploadSuccess ∧
      (onPickFile (file :: others) c).st.serverResponse = c.st.serverResponse) ∧
    (Reachable props c →
      (onPickFile (file :: others) c).st.previewUrl ∉ c.env.liveUrls ∧
      (c.st.previewUrl ≠ "" →
        c.st.previewUrl ∉ (onPickFile (file :: others) c).env.liveUrls)) ∧
    onPickFile [] c = c := by
  have hrevseq : (revokeIfSet c.st.previewUrl c.env).urlSeq = c.env.urlSeq := by
    by_cases hu : c.st.previewUrl = "" <;> simp [revokeIfSet, revokeObjectURL, hu]
  have hurl : (onPickFile (file :: others) c).st.previewUrl = urlOf c.env.urlSeq := by
    simp [onPickFile, createObjectURL, hrevseq, urlOf]
  have hfresh : ∀ k, k < c.env.urlSeq →
      (onPickFile (file :: others) c).st.previewUrl ≠ urlOf k := by
    intro k hk he
    rw [hurl] at he
    exact absurd (urlOf_injective _ _ he) (Nat.ne_of_gt hk)
  have hlive : ∀ w : World, (stopCamera c.st.stream w).liveUrls = w.liveUrls := by
    intro w
    cases c.st.stream <;> rfl
  refine ⟨rfl, ?_, ?_, hurl, ?_, hfresh, ?_, ?_, rfl, ?_, ?_, ⟨rfl, rfl, rfl, rfl, rfl⟩, ?_, rfl⟩
  · intro hp
    cases hst : c.st.stream <;>
      simp [onPickFile, stopCamera, createObjectURL, revokeIfSet, revokeObjectURL, hp, hst]
  · intro hp
    cases hst : c.st.stream <;>
      simp [onPickFile, stopCamera, createObjectURL, revokeIfSet, hp, hst]
  · rw [hurl]
    intro he
    have := congrArg String.length he
    simp [urlOf] at this
    exact absurd this.1 (by decide)
  · rw [hurl]
    simp only [onPickFile, List.head?, hlive]
    simp [createObjectURL, hrevseq, urlOf]
  · cases hst : c.st.stream <;>
      simp [onPickFile, stopCamera, createObjectURL, hrevseq, hst]
  · intro sid hs
    simp only [onPickFile, List.head?, hs]
    exact stopCamera_not_running sid _
  · intro hs
    simp [onPickFile, hs, stopCamera, createObjectURL, revokeIfSet_running_eq]
  · rintro ⟨es, rfl⟩
    constructor
    · intro hmem
      obtain ⟨k, hk, hek⟩ := run_urlsMinted props es _ hmem
      exact hfresh k hk hek
    · intro hp hmem
      rcases run_previewMinted props es with h0 | ⟨k, hk, hek⟩
      · exact hp h0
      · simp only [onPickFile, List.head?, hlive] at hmem
        simp only [createObjectURL, List.mem_append, List.mem_singleton, hrevseq] at hmem
        rcases hmem with hmem | hmem
        · simp [revokeIfSet, revokeObjectURL, hp] at hmem
        · rw [hek] at hmem
          exact absurd (urlOf_injective _ _ hmem) (Nat.ne_of_lt hk)

/-- C17 at the preview reached by one capture, whose URL is "blob:0": picking
a file revokes it and shows "blob:1". -/
theorem onPickFile_replaces_preview_witness :
    Reachable sampleProps capturedPreview ∧
    capturedPreview.env.liveUrls = ["blob:0"] ∧
    (onPickFile [sampleFile] capturedPreview).st.previewUrl = "blob:1" ∧
    (onPickFile [sampleFile] capturedPreview).env.liveUrls = ["blob:1"] ∧
    (onPickFile [sampleFile] capturedPreview).env.revokedUrls = ["blob:0"] ∧
    (onPickFile [sampleFile] capturedPreview).st.previewUrl ∉ capturedPreview.env.liveUrls ∧
    (onPickFile [sampleFile] capturedPreview).st.capturedBlob =
      some (Payload.file sampleFile) :=
  have h := onPickFile_replaces_preview sampleProps capturedPreview sampleFile []
  ⟨⟨_, rfl⟩, by decide, by decide, by decide, by decide,
    (h.2.2.2.2.2.2.2.2.2.2.2.2.1 ⟨_, rfl⟩).1, h.2.2.2.2.2.2.2.2.1⟩

/-! ## C18: preview URLs left alive -/

/-- C18 fails on the code. "Capture" is clicked twice before the first
encoding arrives, so both callbacks close over the empty `previewUrl` of that
render: the second one creates "blob:1" and revokes nothing, and "blob:0"
stays alive although it is no longer the preview; it is still alive after the
scanner is closed. Likewise a callback that arrives after the scanner was
closed creates a URL that nothing revokes. -/
theorem preview_url_left_alive :
    (run sampleProps [Event.cameraSettles true, Event.click sampleFrame Control.capture,
      Event.click sampleFrame Control.capture, Event.blobSettles 0 (some sampleBlob),
      Event.blobSettles 0 (some sampleBlob)]).st.previewUrl = "blob:1" ∧
    (run sampleProps [Event.cameraSettles true, Event.click sampleFrame Control.capture,
      Event.click sampleFrame Control.capture, Event.blobSettles 0 (some sampleBlob),
      Event.blobSettles 0 (some sampleBlob)]).env.liveUrls = ["blob:0", "blob:1"] ∧
    (run sampleProps [Event.cameraSettles true, Event.click sampleFrame Control.capture,
      Event.click sampleFrame Control.capture, Event.blobSettles 0 (some sampleBlob),
      Event.blobSettles 0 (some sampleBlob),
      Event.click sampleFrame Control.close]).env.liveUrls = ["blob:0"] ∧
    (run sampleProps [Event.cameraSettles true, Event.click sampleFrame Control.capture,
      Event.click sampleFrame Control.cancel,
      Event.blobSettles 0 (some sampleBlob)]).env.closeCalls = 1 ∧
    (run sampleProps [Event.cameraSettles true, Event.click sampleFrame Control.capture,
      Event.click sampleFrame Control.cancel,
      Event.blobSettles 0 (some sampleBlob)]).env.liveUrls = ["blob:0"] :=
  ⟨by decide, by decide, by decide, rfl, by decide⟩

/-! ## C19: a capture that produces nothing -/

/-- C19. Without a video element `captureImage` returns the configuration
unchanged. With one, the click itself changes no state cell, creates no URL
and stops no stream; a `toBlob` callback that receives no blob leaves whatever
configuration it runs in unchanged; and when that callback runs right after
the click the scanner is exactly where it was before the click, in the same
mode. -/
theorem failed_capture_is_noop (props : Props) (c : Config) (v : Video) :
    captureImage none c = c ∧
    (captureImage (some v) c).st = c.st ∧
    (captureImage (some v) c).env.liveUrls = c.env.liveUrls ∧
    (captureImage (some v) c).env.urlSeq = c.env.urlSeq ∧
    (captureImage (some v) c).env.revokedUrls = c.env.revokedUrls ∧
    (captureImage (some v) c).env.running = c.env.running ∧
    mode (captureImage (some v) c) = mode c ∧
    (∀ (cl : Snapshot) (d : Config), toBlobCallback cl none d = d) ∧
    step props (Event.blobSettles c.env.pendingBlobs.length none) (captureImage (some v) c)
      = c ∧
    (videoMounted c.st = false → click v Control.capture c = c) := by
  refine ⟨rfl, rfl, rfl, rfl, rfl, rfl, rfl, fun _ _ => rfl, ?_, ?_⟩
  · rw [step_blobSettles_after_capture]
    rfl
  · intro hv
    unfold click
    by_cases hc : clickable Control.capture c = true
    · rw [if_pos hc]
      simp [handler, videoRef, hv, captureImage]
    · rw [if_neg hc]

/-! ## C20: the size of the snapshot -/

/-- C20. `captureImage` requests the encoding of a canvas whose width is
`videoWidth` when that is non-zero and 1280 otherwise, and whose height is
`videoHeight` when that is non-zero and 720 otherwise, each independently of
the other: the native size when both are known, 1280 by 720 when neither is,
and one native and one default dimension when only one is known. -/
theorem capture_resolution (c : Config) (v : Video) :
    (∃ s : Snapshot,
      (captureImage (some v) c).env.pendingBlobs = c.env.pendingBlobs ++ [s] ∧
      (0 < v.videoWidth → s.width = v.videoWidth) ∧
      (v.videoWidth = 0 → s.width = 1280) ∧
      (0 < v.videoHeight → s.height = v.videoHeight) ∧
      (v.videoHeight = 0 → s.height = 720)) ∧
    (0 < v.videoWidth → 0 < v.videoHeight →
      (captureImage (some v) c).env.pendingBlobs = c.env.pendingBlobs ++
        [{ previewUrl := c.st.previewUrl, stream := c.st.stream,
           width := v.videoWidth, height := v.videoHeight }]) ∧
    (v.videoWidth = 0 → v.videoHeight = 0 →
      (captureImage (some v) c).env.pendingBlobs = c.env.pendingBlobs ++
        [{ previewUrl := c.st.previewUrl, stream := c.st.stream,
           width := 1280, height := 720 }]) ∧
    (0 < v.videoWidth → v.videoHeight = 0 →
      (captureImage (some v) c).env.pendingBlobs = c.env.pendingBlobs ++
        [{ previewUrl := c.st.previewUrl, stream := c.st.stream,
           width := v.videoWidth, height := 720 }]) ∧
    (v.videoWidth = 0 → 0 < v.videoHeight →
      (captureImage (some v) c).env.pendingBlobs = c.env.pendingBlobs ++
        [{ previewUrl := c.st.previewUrl, stream := c.st.stream,
           width := 1280, height := v.videoHeight }]) := by
  rw [captureImage_some]
  refine ⟨⟨_, rfl, ?_, ?_, ?_, ?_⟩, ?_, ?_, ?_, ?_⟩
  · intro h; simp [Nat.pos_iff_ne_zero.mp h]
  · intro h; simp [h]
  · intro h; simp [Nat.pos_iff_ne_zero.mp h]
  · intro h; simp [h]
  · intro hw hh; simp [Nat.pos_iff_ne_zero.mp hw, Nat.pos_iff_ne_zero.mp hh]
  · intro hw hh; simp [hw, hh]
  · intro hw hh; simp [Nat.pos_iff_ne_zero.mp hw, hh]
  · intro hw hh; simp [hw, Nat.pos_iff_ne_zero.mp hh]

/-- C20 at a 640 by 480 frame, at a frame of unknown size and at a frame that
reports only its width. -/
theorem capture_resolution_witness :
    (captureImage (some sampleFrame) mount).env.pendingBlobs =
      [{ previewUrl := "", stream := none, width := 640, height := 480 }] ∧
    (captureImage (some { videoWidth := 0, videoHeight := 0 }) mount).env.pendingBlobs =
      [{ previewUrl := "", stream := none, width := 1280, height := 720 }] ∧
    (captureImage (some { videoWidth := 1920, videoHeight := 0 }) mount).env.pendingBlobs =
      [{ previewUrl := "", stream := none, width := 1920, height := 720 }] :=
  ⟨(capture_resolution mount sampleFrame).2.1 (by decide) (by decide),
    (capture_resolution mount { videoWidth := 0, videoHeight := 0 }).2.2.1 rfl rfl,
    (capture_resolution mount { videoWidth := 1920, videoHeight := 0 }).2.2.2.1
      (by decide) rfl⟩

/-! ## C21: the product cards of the success view -/

theorem productCard_isSome (name : String) (details : Json) (h : details ≠ Json.null)
    (hs : detailSlots.all (slotRenders details) = true) :
    ∃ card, productCard name details = some card ∧ card.key = name ∧ card.name = name := by
  have hcard : productCard name details =
      some { key := name, name := name,
             fields := detailSlots.filterMap (fun slot =>
               match details.get? slot.2 with
               | some v => if v.truthy then some { label := slot.1, value := v } else none
               | none => none) } := by
    cases details with
    | null => exact absurd rfl h
    | bool b => simp only [productCard, hs, if_true]
    | num n => simp only [productCard, hs, if_true]
    | str s => simp only [productCard, hs, if_true]
    | arr items => simp only [productCard, hs, if_true]
    | obj fields => simp only [productCard, hs, if_true]
  exact ⟨_, hcard, rfl, rfl⟩

theorem productCard_unrenderable (name : String) (details : Json)
    (hs : detailSlots.all (slotRenders details) = false) : productCard name details = none := by
  cases details <;> simp [productCard, hs]

theorem productCards_isSome (es : List (String × Json))
    (h : ∀ e ∈ es, e.2 ≠ Json.null ∧ detailSlots.all (slotRenders e.2) = true) :
    ∃ cards, productCards es = some cards ∧
      cards.map (fun c => c.key) = es.map Prod.fst ∧
      cards.map (fun c => c.name) = es.map Prod.fst := by
  induction es with
  | nil => exact ⟨[], rfl, rfl, rfl⟩
  | cons e rest ih =>
    obtain ⟨cards, hc, hk, hn⟩ := ih (fun x hx => h x (List.mem_cons_of_mem e hx))
    obtain ⟨hnull, hslots⟩ := h e (List.mem_cons_self e rest)
    obtain ⟨card, hcard, hkey, hname⟩ := productCard_isSome e.1 e.2 hnull hslots
    refine ⟨card :: cards, ?_, ?_, ?_⟩
    · simp [productCards, hcard, hc]
    · simp [hkey, hk]
    · simp [hname, hn]

theorem productCards_none (es : List (String × Json)) (e : String × Json) (he : e ∈ es)
    (hn : productCard e.1 e.2 = none) : productCards es = none := by
  induction es with
  | nil => exact absurd he (List.not_mem_nil e)
  | cons x rest ih =>
    rcases List.mem_cons.mp he with hx | hx
    · subst hx
      simp [productCards, hn]
    · cases hpc : productCard x.1 x.2 with
      | none => simp [productCards, hpc]
      | some card => simp [productCards, hpc, ih hx]

theorem toString_nat_injective : Function.Injective (fun n : Nat => toString n) := by
  intro a b h
  have := congrArg (fun s : String => decimalValue s.data) h
  simpa [decimalValue_toString] using this

theorem index_keys_nodup {α : Type} (l : List α) :
    ((l.enum.map (fun iv => (toString iv.1, iv.2))).map Prod.fst).Nodup := by
  have h : (l.enum.map (fun iv => (toString iv.1, iv.2))).map Prod.fst =
      (List.range l.length).map (fun n : Nat => toString n) := by
    rw [← List.enum_map_fst l, List.map_map, List.map_map]
    rfl
  rw [h]
  exact (List.nodup_range l.length).map toString_nat_injective

theorem objectKeys_nodup (v : Json)
    (h : ∀ fields, v = Json.obj fields → (fields.map Prod.fst).Nodup) :
    (objectKeys v).Nodup := by
  cases v with
  | null => exact List.nodup_nil
  | bool b => exact List.nodup_nil
  | num n => exact List.nodup_nil
  | str s => exact index_keys_nodup (codeUnits s)
  | arr items => exact index_keys_nodup items
  | obj fields => exact h fields rfl

/-- C21, as stated, fails. In the response that maps "Widget" to `null`,
`data.products` has one entry, but the card callback reads `details.quantity`
of `null`, which throws. In the response whose "Widget" has an object as its
`quantity`, `data.products` has one entry and no entry is `null`, but the
object is placed as a child of the "Qty" element, which React refuses. Either
way `SuccessView` renders nothing at all. -/
theorem successView_cards_counterexample :
    objectKeys (productsOf nullProductResponse) = ["Widget"] ∧
    SuccessView "blob:0" nullProductResponse = none ∧
    objectKeys (productsOf objectFieldResponse) = ["Widget"] ∧
    SuccessView "blob:0" objectFieldResponse = none :=
  ⟨rfl, rfl, rfl, rfl⟩

/-- C21 as amended. Let `r` be a response that can be rendered: no entry of
its products is `null`, every truthy detail property that a card shows is a
valid child (a string, a number, or an array of such, not an object), and so
is its document id. Then `SuccessView` renders one product card per entry of
`response?.data?.products || {}`, in order, keyed and titled by the entry's
name, and the count it displays is the number of cards. The keys are pairwise
different whenever the names of the products object are, as they are in every
parsed JSON object. When the response is `null`, or has no `data`, or its
`data` has no `products`, the count is 0 and there is no card. For the
response of the scenario there is exactly one card, "Widget", showing Qty "3"
and Price "$9". A response with a `null` entry, with an entry one of whose
shown properties is not a valid child, or with a document id that is not one,
renders nothing. -/
theorem successView_cards (imageUrl : String) (r : Json)
    (h : ∀ e ∈ objectEntries (productsOf r),
      e.2 ≠ Json.null ∧ detailSlots.all (slotRenders e.2) = true)
    (hid : (documentIdOf r).validChild = true) :
    (∃ v, SuccessView imageUrl r = some v ∧
      v.cards.map (fun c => c.key) = objectKeys (productsOf r) ∧
      v.cards.map (fun c => c.name) = objectKeys (productsOf r) ∧
      v.cards.length = (objectEntries (productsOf r)).length ∧
      v.productCount = v.cards.length ∧
      ((∀ fields, productsOf r = Json.obj fields → (fields.map Prod.fst).Nodup) →
        (v.cards.map (fun c => c.key)).Nodup) ∧
      ((r.get? "data").bind (fun d => d.get? "products") = none →
        v.productCount = 0 ∧ v.cards = [])) ∧
    (∀ url, ∃ v, SuccessView url Json.null = some v ∧ v.productCount = 0 ∧ v.cards = []) ∧
    (SuccessView imageUrl widgetResponse =
      some { imageUrl := imageUrl, documentId := Json.str "abc123", productCount := 1,
             cards := [{ key := "Widget", name := "Widget",
                         fields := [{ label := "Qty", value := Json.str "3" },
                                    { label := "Price", value := Json.str "$9" }] }] }) ∧
    (∀ (url : String) (q : Json) (e : String × Json), e ∈ objectEntries (productsOf q) →
      e.2 = Json.null → SuccessView url q = none) ∧
    (∀ (url : String) (q : Json) (e : String × Json), e ∈ objectEntries (productsOf q) →
      detailSlots.all (slotRenders e.2) = false → SuccessView url q = none) ∧
    (∀ (url : String) (q : Json), (documentIdOf q).validChild = false →
      SuccessView url q = none) := by
  obtain ⟨cards, hc, hk, hn⟩ := productCards_isSome _ h
  have hlen : cards.length = (objectEntries (productsOf r)).length := by
    have := congrArg List.length hk
    simpa using this
  refine ⟨⟨{ imageUrl := imageUrl, documentId := documentIdOf r,
             productCount := (objectKeys (productsOf r)).length, cards := cards }, ?_, hk, hn,
      hlen, ?_, ?_, ?_⟩, ?_, rfl, ?_, ?_, ?_⟩
  · simp [SuccessView, hc, hid]
  · simp [objectKeys, hlen]
  · intro hd
    show (cards.map (fun c => c.key)).Nodup
    rw [hk]
    exact objectKeys_nodup _ hd
  · intro hnone
    have hp : productsOf r = Json.obj [] := by simp [productsOf, hnone, orElse]
    have hz : (objectEntries (productsOf r)).length = 0 := by rw [hp]; rfl
    refine ⟨by simp [objectKeys, hz], ?_⟩
    exact List.length_eq_zero.mp (hlen.trans hz)
  · intro url
    exact ⟨_, rfl, rfl, rfl⟩
  · intro url q e he hnull
    have hcard : productCard e.1 e.2 = none := by rw [hnull]; rfl
    simp [SuccessView, productCards_none _ e he hcard]
  · intro url q e he hbad
    simp [SuccessView, productCards_none _ e he (productCard_unrenderable e.1 e.2 hbad)]
  · intro url q hbad
    simp only [SuccessView]
    cases productCards (objectEntries (productsOf q)) with
    | none => rfl
    | some cs => simp [hbad]

/-- C21 as amended, at the response of the scenario: one entry, one card. -/
theorem successView_cards_witness :
    (∀ e ∈ objectEntries (productsOf widgetResponse),
      e.2 ≠ Json.null ∧ detailSlots.all (slotRenders e.2) = true) ∧
    (documentIdOf widgetResponse).validChild = true ∧
    objectKeys (productsOf widgetResponse) = ["Widget"] ∧
    ∃ v, SuccessView "blob:0" widgetResponse = some v ∧
      v.cards.map (fun c => c.key) = objectKeys (productsOf widgetResponse) ∧
      v.productCount = v.cards.length :=
  have hw : ∀ e ∈ objectEntries (productsOf widgetResponse),
      e.2 ≠ Json.null ∧ detailSlots.all (slotRenders e.2) = true := by
    intro e he
    have : e = ("Widget", Json.obj [("quantity", Json.str "3"), ("price", Json.str "$9")]) := by
      simpa [objectEntries, productsOf, widgetResponse, Json.get?, orElse, Json.truthy,
        List.lookup] using he
    rw [this]
    exact ⟨(fun hc => by cases hc), rfl⟩
  have h := (successView_cards "blob:0" widgetResponse hw rfl).1
  ⟨hw, rfl, rfl, h.elim (fun v hv => ⟨v, hv.1, hv.2.1, hv.2.2.2.2.1⟩)⟩

/-! ## C22: no validation of a successful response -/

/-- C22. With a payload set, a response of success status whose body parses
to any value `p` ends a run of `upload` in the succeeded mode with
`serverResponse = p`; nothing about `p` is checked, and the success view is on
the screen exactly when `SuccessView` can render `p`. For the body `null`, for
every array, and for every object that has neither an `inserted_id` nor a
`data.products` (more generally for every body without these two, whatever
it is), `SuccessView` does render and shows the document id "N/A", the count 0
and no product card. None of these bodies has the Upload Result shape. -/
theorem unvalidated_success (props : Props) (c : Config) (b : Payload) (status : Nat)
    (p : Json) (hb : c.st.capturedBlob = some b) (hok : ok status = true) :
    (uploadRun props (FetchOutcome.response status (Body.json p)) c).st.uploadSuccess = true ∧
    (uploadRun props (FetchOutcome.response status (Body.json p)) c).st.serverResponse = p ∧
    mode (uploadRun props (FetchOutcome.response status (Body.json p)) c) = Mode.SUCCEEDED ∧
    rendered Control.done (uploadRun props (FetchOutcome.response status (Body.json p)) c).st =
      (SuccessView c.st.previewUrl p).isSome ∧
    (∀ url : String, SuccessView url Json.null =
      some { imageUrl := url, documentId := Json.str "N/A", productCount := 0, cards := [] }) ∧
    (∀ (url : String) (items : List Json), SuccessView url (Json.arr items) =
      some { imageUrl := url, documentId := Json.str "N/A", productCount := 0, cards := [] }) ∧
    (∀ (url : String) (q : Json), q.get? "inserted_id" = none →
      (q.get? "data").bind (fun d => d.get? "products") = none →
      SuccessView url q =
        some { imageUrl := url, documentId := Json.str "N/A", productCount := 0,
               cards := [] }) ∧
    (∀ url : String, SuccessView url (Json.obj []) =
      some { imageUrl := url, documentId := Json.str "N/A", productCount := 0, cards := [] }) ∧
    ((p = Json.null ∨ (∃ items, p = Json.arr items) ∨
        (p.get? "inserted_id" = none ∧
          (p.get? "data").bind (fun d => d.get? "products") = none)) →
      rendered Control.done
        (uploadRun props (FetchOutcome.response status (Body.json p)) c).st = true) ∧
    isUploadResult Json.null = false ∧
    (∀ items : List Json, isUploadResult (Json.arr items) = false) ∧
    (∀ q : Json, q.get? "inserted_id" = none → isUploadResult q = false) := by
  have hrun : uploadRun props (FetchOutcome.response status (Body.json p)) c =
      uploadResume props (FetchOutcome.response status (Body.json p)) (upload c) := by
    simp [uploadRun, hb]
  have hup : upload c =
      { st := { c.st with error := "", busy := true },
        env := { c.env with
          requests := c.env.requests ++
            [{ url := API ++ "/process-image", method := "POST", form := uploadForm b }],
          inFlight := c.env.inFlight + 1 } } := by
    unfold upload; rw [hb]
  have hgen : ∀ (url : String) (q : Json), q.get? "inserted_id" = none →
      (q.get? "data").bind (fun d => d.get? "products") = none →
      SuccessView url q =
        some { imageUrl := url, documentId := Json.str "N/A", productCount := 0,
               cards := [] } := by
    intro url q hid hprod
    simp [SuccessView, productsOf, documentIdOf, hid, hprod, orElse, objectKeys, objectEntries,
      productCards, Json.validChild]
  have hdone : rendered Control.done
      (uploadResume props (FetchOutcome.response status (Body.json p))
        { st := { c.st with error := "", busy := true },
          env := { c.env with
            requests := c.env.requests ++
              [{ url := API ++ "/process-image", method := "POST", form := uploadForm b }],
            inFlight := c.env.inFlight + 1 } }).st =
      (SuccessView c.st.previewUrl p).isSome := by
    cases hv : SuccessView c.st.previewUrl p <;>
      simp [uploadResume, hok, rendered, crashed, hv]
  rw [hrun, hup]
  refine ⟨?_, ?_, ?_, hdone, fun _ => rfl, fun _ _ => rfl, hgen, fun _ => rfl, ?_, rfl,
    fun _ => rfl, ?_⟩
  · simp [uploadResume, hok]
  · simp [uploadResume, hok]
  · simp [uploadResume, hok, mode]
  · intro hp
    rw [hdone]
    rcases hp with hp | ⟨items, hp⟩ | ⟨h1, h2⟩
    · rw [hp]; rfl
    · rw [hp]; rfl
    · rw [hgen _ p h1 h2]; rfl
  · intro q hid
    simp [isUploadResult, hid]

/-- C22 at the preview reached by one capture, answered with status 200 and
the body `null`. -/
theorem unvalidated_success_witness :
    capturedPreview.st.capturedBlob = some (Payload.blob sampleBlob) ∧
    ok 200 = true ∧
    (uploadRun sampleProps (FetchOutcome.response 200 (Body.json Json.null))
      capturedPreview).st.uploadSuccess = true ∧
    mode (uploadRun sampleProps (FetchOutcome.response 200 (Body.json Json.null))
      capturedPreview) = Mode.SUCCEEDED ∧
    SuccessView "blob:0" Json.null =
      some { imageUrl := "blob:0", documentId := Json.str "N/A", productCount := 0,
             cards := [] } :=
  have h := unvalidated_success sampleProps capturedPreview (Payload.blob sampleBlob) 200
    Json.null rfl rfl
  ⟨rfl, rfl, h.1, h.2.2.1, h.2.2.2.2.1 "blob:0"⟩

/-! ## C23: capturing without a camera stream -/

/-- C23. In a configuration that shows the video element, the handler of
"Capture" is `captureImage` on that element, whether or not a stream is held.
Whenever its `toBlob` callback runs with a blob `b`, `capturedBlob` becomes
`b` and `previewUrl` a non-empty URL; `stream` and `error` are left as they
were. When the callback runs right after the click and no upload is in
flight, as in every reachable configuration that shows the video element, the
mode is then preview. In particular, after the camera was denied at the mount
(`stream` null, `error` set), a click on "Capture" followed by a blob leads to
the preview. -/
theorem capture_without_stream (props : Props) (c : Config) (v : Video) (b : Blob)
    (hv : videoMounted c.st = true) :
    handler v Control.capture c = captureImage (some v) c ∧
    (onScreen c = true → click v Control.capture c = captureImage (some v) c) ∧
    (∀ (cl : Snapshot) (d : Config),
      (toBlobCallback cl (some b) d).st.capturedBlob = some (Payload.blob b) ∧
      (toBlobCallback cl (some b) d).st.previewUrl ≠ "" ∧
      (toBlobCallback cl (some b) d).st.stream = d.st.stream ∧
      (toBlobCallback cl (some b) d).st.error = d.st.error) ∧
    (step props (Event.blobSettles c.env.pendingBlobs.length (some b))
      (captureImage (some v) c)).st.capturedBlob = some (Payload.blob b) ∧
    (step props (Event.blobSettles c.env.pendingBlobs.length (some b))
      (captureImage (some v) c)).st.previewUrl ≠ "" ∧
    (step props (Event.blobSettles c.env.pendingBlobs.length (some b))
      (captureImage (some v) c)).st.stream = c.st.stream ∧
    (c.st.busy = false →
      mode (step props (Event.blobSettles c.env.pendingBlobs.length (some b))
        (captureImage (some v) c)) = Mode.PREVIEW) ∧
    (Reachable props c →
      mode (step props (Event.blobSettles c.env.pendingBlobs.length (some b))
        (captureImage (some v) c)) = Mode.PREVIEW) ∧
    ((run props [Event.cameraSettles false]).st.stream = none ∧
      (run props [Event.cameraSettles false]).st.error = deviceAccessError ∧
      (run props [Event.cameraSettles false, Event.click v Control.capture,
        Event.blobSettles 0 (some b)]).st.capturedBlob = some (Payload.blob b) ∧
      (run props [Event.cameraSettles false, Event.click v Control.capture,
        Event.blobSettles 0 (some b)]).st.stream = none ∧
      mode (run props [Event.cameraSettles false, Event.click v Control.capture,
        Event.blobSettles 0 (some b)]) = Mode.PREVIEW) := by
  have hcb : ∀ (cl : Snapshot) (d : Config),
      (toBlobCallback cl (some b) d).st.capturedBlob = some (Payload.blob b) ∧
      (toBlobCallback cl (some b) d).st.previewUrl ≠ "" ∧
      (toBlobCallback cl (some b) d).st.stream = d.st.stream ∧
      (toBlobCallback cl (some b) d).st.error = d.st.error :=
    fun cl d => ⟨rfl, createObjectURL_fst_ne d.env, rfl, rfl⟩
  have hs : c.st.uploadSuccess = false := by
    cases h : c.st.uploadSuccess with
    | false => rfl
    | true => simp [videoMounted, h] at hv
  have hhandler : handler v Control.capture c = captureImage (some v) c := by
    simp [handler, videoRef, hv]
  have hgen : ∀ (cl : Snapshot) (d : Config), d.st.uploadSuccess = false →
      d.st.busy = false → mode (toBlobCallback cl (some b) d) = Mode.PREVIEW := by
    intro cl d h1 h2
    have hne := (hcb cl d).2.1
    have e1 : (toBlobCallback cl (some b) d).st.uploadSuccess = false := h1
    have e2 : (toBlobCallback cl (some b) d).st.busy = false := h2
    simp [mode, e1, e2, hne]
  have hmode : c.st.busy = false →
      mode (step props (Event.blobSettles c.env.pendingBlobs.length (some b))
        (captureImage (some v) c)) = Mode.PREVIEW := by
    intro hbz
    rw [step_blobSettles_after_capture]
    exact hgen _ c hs hbz
  refine ⟨hhandler, ?_, hcb, ?_, ?_, ?_, hmode, ?_, ⟨rfl, rfl, rfl, rfl, rfl⟩⟩
  · intro hon
    have hr : rendered Control.capture c.st = true := hv
    simp [click, clickable, hon, hr, disabled, hhandler]
  · rw [step_blobSettles_after_capture]; exact (hcb _ c).1
  · rw [step_blobSettles_after_capture]; exact (hcb _ c).2.1
  · rw [step_blobSettles_after_capture]; exact (hcb _ c).2.2.1
  · rintro ⟨es, rfl⟩
    apply hmode
    obtain ⟨_, h2, _, _⟩ := run_inv props es
    cases hbb : (run props es).st.busy with
    | false => rfl
    | true =>
      have hp := (h2 hbb).1
      simp [videoMounted, hp] at hv

/-- C23 at the scanner whose camera was denied. -/
theorem capture_without_stream_witness :
    videoMounted (run sampleProps [Event.cameraSettles false]).st = true ∧
    (run sampleProps [Event.cameraSettles false]).st.stream = none ∧
    (step sampleProps (Event.blobSettles 0 (some sampleBlob))
      (captureImage (some sampleFrame) (run sampleProps [Event.cameraSettles false]))
      ).st.capturedBlob = some (Payload.blob sampleBlob) ∧
    mode (step sampleProps (Event.blobSettles 0 (some sampleBlob))
      (captureImage (some sampleFrame) (run sampleProps [Event.cameraSettles false])))
      = Mode.PREVIEW :=
  have h := capture_without_stream sampleProps (run sampleProps [Event.cameraSettles false])
    sampleFrame sampleBlob rfl
  ⟨rfl, rfl, h.2.2.2.1, h.2.2.2.2.2.2.1 rfl⟩

end CameraScanner

namespace Tasks

/-! ## C24: toggling a task -/

theorem toggleTask_of_not_mem (id : Int) (tasks : List Task)
    (h : id ∉ tasks.map (fun t => t.id)) : toggleTask id tasks = tasks := by
  induction tasks with
  | nil => rfl
  | cons t rest ih =>
    simp only [List.map_cons, List.mem_cons, not_or] at h
    have ht : t.id ≠ id := fun e => h.1 e.symm
    simp only [toggleTask, List.map_cons, ht, if_false]
    exact congrArg (List.cons t) (ih h.2)

theorem completedCount_cons (t : Task) (rest : List Task) :
    completedCount (t :: rest) = (if t.completed then 1 else 0) + completedCount rest := by
  cases hc : t.completed <;> simp [completedCount, List.filter, hc, Nat.add_comm]

theorem completedCount_toggle (id : Int) (tasks : List Task)
    (hnd : (tasks.map (fun t => t.id)).Nodup) (t : Task) (ht : t ∈ tasks) (hid : t.id = id) :
    (t.completed = false → completedCount (toggleTask id tasks) = completedCount tasks + 1) ∧
    (t.completed = true → completedCount (toggleTask id tasks) + 1 = completedCount tasks) := by
  induction tasks with
  | nil => exact absurd ht (List.not_mem_nil t)
  | cons x rest ih =>
    simp only [List.map_cons, List.nodup_cons] at hnd
    obtain ⟨hx, hrest⟩ := hnd
    have hstep : toggleTask id (x :: rest) =
        (if x.id = id then { x with completed := !x.completed } else x) :: toggleTask id rest :=
      rfl
    rcases List.mem_cons.mp ht with hxt | hmem
    · subst hxt
      have hno : id ∉ rest.map (fun t => t.id) := by rw [← hid]; exact hx
      rw [hstep, toggleTask_of_not_mem id rest hno, if_pos hid, completedCount_cons,
        completedCount_cons]
      constructor
      · intro hc; simp [hc]; omega
      · intro hc; simp [hc]; omega
    · have hne : x.id ≠ id := by
        intro e
        apply hx
        rw [e, ← hid]
        exact List.mem_map_of_mem (fun t => t.id) hmem
      obtain ⟨i1, i2⟩ := ih hrest hmem
      rw [hstep, if_neg hne, completedCount_cons, completedCount_cons]
      constructor
      · intro hc; rw [i1 hc]; omega
      · intro hc; have := i2 hc; omega

/-- C24. `toggleTask(id)` maps the list element by element: a task whose `id`
equals `id` gets its `completed` flag negated and keeps its other fields, every
other task is kept as it is, so the length, the order and all ids, titles and
priorities are unchanged. Toggling the same id twice gives back the original
list. When the ids are pairwise different and some task has the id,
`completedCount` goes up by one if that task was not completed and down by one
if it was. -/
theorem toggleTask_spec (id : Int) (tasks : List Task) :
    (toggleTask id tasks).length = tasks.length ∧
    (∀ i : Nat, (toggleTask id tasks)[i]? =
      (tasks[i]?).map (fun t =>
        if t.id = id then { id := t.id, title := t.title, completed := !t.completed,
                            priority := t.priority } else t)) ∧
    (toggleTask id tasks).map (fun t => t.id) = tasks.map (fun t => t.id) ∧
    (toggleTask id tasks).map (fun t => t.title) = tasks.map (fun t => t.title) ∧
    (toggleTask id tasks).map (fun t => t.priority) = tasks.map (fun t => t.priority) ∧
    (toggleTask id tasks).filter (fun t => t.id != id) = tasks.filter (fun t => t.id != id) ∧
    toggleTask id (toggleTask id tasks) = tasks ∧
    ((tasks.map (fun t => t.id)).Nodup → ∀ t ∈ tasks, t.id = id →
      (t.completed = false →
        completedCount (toggleTask id tasks) = completedCount tasks + 1) ∧
      (t.completed = true →
        completedCount (toggleTask id tasks) + 1 = completedCount tasks)) := by
  refine ⟨?_, ?_, ?_, ?_, ?_, ?_, ?_, ?_⟩
  · simp [toggleTask]
  · intro i
    simp only [toggleTask, List.getElem?_map]
  · simp only [toggleTask, List.map_map]
    apply List.map_congr_left
    intro t _
    by_cases h : t.id = id <;> simp [h]
  · simp only [toggleTask, List.map_map]
    apply List.map_congr_left
    intro t _
    by_cases h : t.id = id <;> simp [h]
  · simp only [toggleTask, List.map_map]
    apply List.map_congr_left
    intro t _
    by_cases h : t.id = id <;> simp [h]
  · induction tasks with
    | nil => rfl
    | cons x rest ih =>
      have hstep : toggleTask id (x :: rest) =
          (if x.id = id then { x with completed := !x.completed } else x) ::
            toggleTask id rest := rfl
      rw [hstep, List.filter_cons, List.filter_cons, ih]
      by_cases h : x.id = id
      · simp [h]
      · simp [h]
  · induction tasks with
    | nil => rfl
    | cons x rest ih =>
      have hstep : ∀ (y : Task) (l : List Task), toggleTask id (y :: l) =
          (if y.id = id then { y with completed := !y.completed } else y) ::
            toggleTask id l := fun _ _ => rfl
      rw [hstep x rest, hstep, ih]
      obtain ⟨xid, xt, xc, xp⟩ := x
      by_cases h : xid = id
      · simp [h]
      · simp [h]
  · intro hnd t ht hid
    exact completedCount_toggle id tasks hnd t ht hid

/-- C24 at the initial list: toggling task 2 raises the count from 1 to 2,
toggling it again restores the list. -/
theorem toggleTask_spec_witness :
    completedCount initialTasks = 1 ∧
    completedCount (toggleTask 2 initialTasks) = 2 ∧
    completedCount (toggleTask 1 initialTasks) = 0 ∧
    toggleTask 2 (toggleTask 2 initialTasks) = initialTasks ∧
    (toggleTask 2 initialTasks).length = 4 :=
  have h := toggleTask_spec 2 initialTasks
  ⟨by decide, by decide, by decide, h.2.2.2.2.2.2.1, h.1⟩

end Tasks
